import Mathlib

/-!
# Verification of the expo-print showcase services

A shallow embedding of the service layer of the `test-expo-print` repository:

* `PrintService` (src/services/PrintService.ts): the three pure HTML template
  builders (`generateInvoiceHTML`, `generateReportHTML`, `generateLabelHTML`)
  and the print façade methods.
* `ImageService` (src/services/ImageService.ts): permission checks and pickers.
* `FileService` (src/unnamed/part_000, the expo-file-system enabled variant,
  i.e. the second `FileService` class in that file): document picking, file
  reading and the text-file print path.

The template builders are embedded as explicit string concatenations whose
literal chunks are transcribed verbatim from the TypeScript template literals.
JavaScript numbers are modelled as rationals (`ℚ`); `Number.prototype.toFixed(2)`
as exact rational rounding to two decimals, and default number-to-string as a
decimal expansion (exact on every value the claims exercise).

The effectful façade methods are embedded in a state-passing style: each method
takes the outcome of the platform call it delegates to as an explicit
`Except JSError _` argument together with a `World` (console log, alerts,
recorded platform calls, print jobs), and returns its own outcome and the
updated `World`.
-/

namespace ExpoPrint

/-! ## Substring occurrence counting

`occCount pat l` counts the positions of `l` at which `pat` occurs
(the number of indices `i` with `pat` a prefix of `drop i l`).
-/

/-- Number of occurrence positions of `pat` in `l`. -/
def occCount (pat : List Char) : List Char → Nat
  | [] => 0
  | c :: rest => (if pat <+: c :: rest then 1 else 0) + occCount pat rest

theorem occCount_cons (pat : List Char) (c : Char) (l : List Char) :
    occCount pat (c :: l) = (if pat <+: c :: l then 1 else 0) + occCount pat l := rfl

/-- No occurrence of `pat` may straddle the boundary into `b` from the left:
for every proper split of `pat`, the right part is not a prefix of `b`. -/
def SpanFreeR (pat b : List Char) : Prop :=
  ∀ j ∈ List.range pat.length, 0 < j → ¬ pat.drop j <+: b

/-- No occurrence of `pat` may straddle the boundary out of `a` to the right:
for every proper split of `pat`, the left part is not a suffix of `a`. -/
def SpanFreeL (pat a : List Char) : Prop :=
  ∀ j ∈ List.range pat.length, 0 < j → ¬ pat.take j <:+ a

instance (pat b : List Char) : Decidable (SpanFreeR pat b) :=
  List.decidableBAll _ _

instance (pat a : List Char) : Decidable (SpanFreeL pat a) :=
  List.decidableBAll _ _

theorem occCount_append (pat a b : List Char)
    (H : ∀ j, 0 < j → j < pat.length → ¬(pat.take j <:+ a ∧ pat.drop j <+: b)) :
    occCount pat (a ++ b) = occCount pat a + occCount pat b := by
  induction a with
  | nil => simp [occCount]
  | cons c t ih =>
    have ih' := ih (fun j hj hjl hc => H j hj hjl ⟨hc.1.trans (List.suffix_cons c t), hc.2⟩)
    have hiff : (pat <+: c :: (t ++ b)) ↔ (pat <+: c :: t) := by
      constructor
      · intro h2
        have h2' : pat <+: (c :: t) ++ b := by simpa using h2
        by_cases hlen : pat.length ≤ (c :: t).length
        · exact (List.isPrefix_append_of_length hlen).mp h2'
        · push_neg at hlen
          exfalso
          apply H (c :: t).length (by simp) hlen
          have hpe : pat = ((c :: t) ++ b).take pat.length := List.prefix_iff_eq_take.mp h2'
          constructor
          · have ht : pat.take (c :: t).length = c :: t := by
              conv_lhs => rw [hpe]
              rw [List.take_take, Nat.min_eq_left (Nat.le_of_lt hlen), List.take_left]
            rw [ht]
          · have hd : pat.drop (c :: t).length = b.take (pat.length - (c :: t).length) := by
              conv_lhs => rw [hpe]
              rw [List.drop_take, List.drop_left]
            rw [hd]
            exact ⟨b.drop (pat.length - (c :: t).length), List.take_append_drop _ b⟩
      · intro h1
        have hext : (c :: t) <+: c :: (t ++ b) := by
          have hpa := List.prefix_append (c :: t) b
          rw [List.cons_append] at hpa
          exact hpa
        exact h1.trans hext
    rw [List.cons_append, occCount_cons, occCount_cons, ih', if_congr hiff rfl rfl]
    omega

theorem occCount_append_of_spanFreeR (pat a b : List Char) (h : SpanFreeR pat b) :
    occCount pat (a ++ b) = occCount pat a + occCount pat b :=
  occCount_append pat a b
    (fun j hj hjl hc => h j (List.mem_range.mpr hjl) hj hc.2)

theorem occCount_append_of_spanFreeL (pat a b : List Char) (h : SpanFreeL pat a) :
    occCount pat (a ++ b) = occCount pat a + occCount pat b :=
  occCount_append pat a b
    (fun j hj hjl hc => h j (List.mem_range.mpr hjl) hj hc.1)

theorem suffix_of_append_right {α : Type} {s a c : List α}
    (hs : s <:+ a ++ c) (hl : s.length ≤ c.length) : s <:+ c := by
  obtain ⟨u, hu⟩ := hs
  have hlen : u.length + s.length = a.length + c.length := by
    have h3 := congrArg List.length hu
    simpa using h3
  have e1 : s = (a ++ c).drop u.length := by
    rw [← hu, List.drop_left]
  have ha : a.length ≤ u.length := by omega
  have e2 : (a ++ c).drop u.length = c.drop (u.length - a.length) := by
    rw [List.drop_append_eq_append_drop, List.drop_eq_nil_of_le ha, List.nil_append]
  refine ⟨c.take (u.length - a.length), ?_⟩
  rw [e1, e2, List.take_append_drop]

theorem suffix_of_suffix_length_le {α : Type} {l₁ l₂ l₃ : List α}
    (h1 : l₁ <:+ l₃) (h2 : l₂ <:+ l₃) (hl : l₁.length ≤ l₂.length) : l₁ <:+ l₂ := by
  obtain ⟨u, hu⟩ := h1
  obtain ⟨v, hv⟩ := h2
  have hlen : u.length + l₁.length = v.length + l₂.length := by
    have h3 := congrArg List.length hu
    have h4 := congrArg List.length hv
    simp only [List.length_append] at h3 h4
    omega
  have e1 : l₁ = l₃.drop u.length := by rw [← hu, List.drop_left]
  have e2 : l₂ = l₃.drop v.length := by rw [← hv, List.drop_left]
  have e3 : l₁ = l₂.drop (l₂.length - l₁.length) := by
    have h5 : l₂.drop (l₂.length - l₁.length) = l₃.drop (v.length + (l₂.length - l₁.length)) := by
      rw [← List.drop_drop, ← e2]
    have h6 : v.length + (l₂.length - l₁.length) = u.length := by omega
    rw [h5, h6, ← e1]
  exact e3 ▸ List.drop_suffix _ _

theorem spanFreeR_nil (pat : List Char) : SpanFreeR pat [] := by
  intro j hj hj0 hpre
  have h1 : pat.drop j = [] := List.prefix_nil.mp hpre
  have h2 : pat.length - j = 0 := by
    simpa [List.length_drop] using congrArg List.length h1
  have h3 := List.mem_range.mp hj
  omega

theorem spanFreeR_of_head (pat b : List Char) (ch : Char) (hb : b.head? = some ch)
    (hpat : ∀ j ∈ List.range pat.length, 0 < j → (pat.drop j).head? ≠ some ch) :
    SpanFreeR pat b := by
  intro j hj hj0 hpre
  apply hpat j hj hj0
  rcases he : pat.drop j with _ | ⟨c, cs⟩
  · exfalso
    have h2 : pat.length - j = 0 := by
      simpa [List.length_drop] using congrArg List.length he
    have h3 := List.mem_range.mp hj
    omega
  · obtain ⟨t, ht⟩ := hpre
    rw [he] at ht
    rw [← ht] at hb
    simp only [List.cons_append, List.head?_cons] at hb
    simp only [List.head?_cons]
    exact hb

theorem spanFreeR_of_append (pat b₀ b₁ : List Char) (hlen : pat.length ≤ b₀.length + 1)
    (h : SpanFreeR pat b₀) : SpanFreeR pat (b₀ ++ b₁) := by
  intro j hj hj0 hpre
  apply h j hj hj0
  have hjl : j < pat.length := List.mem_range.mp hj
  have hl : (pat.drop j).length ≤ b₀.length := by
    rw [List.length_drop]
    omega
  exact (List.isPrefix_append_of_length hl).mp hpre

theorem spanFreeL_of_append (pat a₀ a₁ : List Char) (hlen : pat.length ≤ a₁.length + 1)
    (h : SpanFreeL pat a₁) : SpanFreeL pat (a₀ ++ a₁) := by
  intro j hj hj0 hsuf
  apply h j hj hj0
  have hjl : j < pat.length := List.mem_range.mp hj
  apply suffix_of_append_right hsuf
  rw [List.length_take]
  omega

theorem spanFreeL_of_not_mem (pat a : List Char) (ch : Char) (hp : pat.head? = some ch)
    (ha : ch ∉ a) : SpanFreeL pat a := by
  intro j hj hj0 hsuf
  apply ha
  apply hsuf.subset
  rcases pat with _ | ⟨c, cs⟩
  · simp at hp
  · have hc : c = ch := by simpa using hp
    rcases j with _ | j
    · omega
    · simp [List.take_succ_cons, hc]

/-- A concrete tail `c` blocks every straddling occurrence of `pat` to its right,
whatever text precedes it. -/
def TailSafe (pat c : List Char) : Prop :=
  ∀ j ∈ List.range pat.length, 0 < j →
    (j ≤ c.length → ¬ pat.take j <:+ c) ∧ (c.length < j → ¬ c <:+ pat.take j)

instance (pat c : List Char) : Decidable (TailSafe pat c) :=
  List.decidableBAll _ _

theorem spanFreeL_of_tailSafe (pat a₀ c : List Char) (h : TailSafe pat c) :
    SpanFreeL pat (a₀ ++ c) := by
  intro j hj hj0 hsuf
  have hjl : j < pat.length := List.mem_range.mp hj
  have hlen : (pat.take j).length = j := by
    rw [List.length_take, Nat.min_eq_left (Nat.le_of_lt hjl)]
  rcases le_or_lt j c.length with hle | hgt
  · exact ((h j hj hj0).1 hle) (suffix_of_append_right hsuf (by omega))
  · apply (h j hj hj0).2 hgt
    exact suffix_of_suffix_length_le (List.suffix_append a₀ c) hsuf (by omega)

theorem occCount_eq_zero_of_not_mem (pat l : List Char) (ch : Char)
    (hp : pat.head? = some ch) (h : ch ∉ l) : occCount pat l = 0 := by
  induction l with
  | nil => rfl
  | cons c t ih =>
    have hc : c ≠ ch := fun he => h (he ▸ List.mem_cons_self c t)
    have ht : ch ∉ t := fun hm => h (List.mem_cons_of_mem c hm)
    have hnp : ¬ pat <+: c :: t := by
      intro hpre
      rcases pat with _ | ⟨p, ps⟩
      · simp at hp
      · have hpc : p = ch := by simpa using hp
        have := (List.cons_prefix_cons.mp hpre).1
        exact hc (this ▸ hpc ▸ rfl)
    simp [occCount, hnp, ih ht]

theorem occCount_eq_zero_iff (pat l : List Char) (hpat : pat ≠ []) :
    occCount pat l = 0 ↔ ¬ pat <:+: l := by
  induction l with
  | nil =>
    simp [occCount, List.infix_nil, hpat]
  | cons c t ih =>
    rw [List.infix_cons_iff]
    by_cases h : pat <+: c :: t
    · simp [occCount, h]
    · simp [occCount, h, ih]

theorem head?_append_left {α : Type} (l r : List α) (h : l ≠ []) :
    (l ++ r).head? = l.head? := by
  cases l with
  | nil => exact absurd rfl h
  | cons c t => rfl

/-! ## Strings -/

theorem str_ext {s t : String} (h : s.data = t.data) : s = t :=
  congrArg String.mk h

theorem str_data_append (a b : String) : (a ++ b).data = a.data ++ b.data := rfl

theorem str_append_assoc (a b c : String) : a ++ b ++ c = a ++ (b ++ c) :=
  str_ext (by simp [str_data_append])

theorem str_append_empty (s : String) : s ++ "" = s :=
  str_ext (by simp [str_data_append])

/-- `p` occurs as a contiguous substring of `s`. -/
def strInfix (p s : String) : Prop := p.data <:+: s.data

instance (p s : String) : Decidable (strInfix p s) :=
  List.decidableInfix _ _

theorem strInfix_head (p t : String) : strInfix p (p ++ t) :=
  ⟨[], t.data, by simp [str_data_append]⟩

theorem strInfix_appendL (p s t : String) (h : strInfix p s) : strInfix p (s ++ t) := by
  obtain ⟨u, v, huv⟩ := h
  exact ⟨u, v ++ t.data, by rw [str_data_append, ← huv]; simp⟩

theorem strInfix_appendR (p s t : String) (h : strInfix p t) : strInfix p (s ++ t) := by
  obtain ⟨u, v, huv⟩ := h
  exact ⟨s.data ++ u, v, by rw [str_data_append, ← huv]; simp⟩

theorem strInfix_congr (p p' s : String) (h : p = p') (h2 : strInfix p' s) :
    strInfix p s := h ▸ h2

/-- Models `list.map(f).join('')` on a JavaScript array. -/
def concatMap {α : Type} (f : α → String) : List α → String
  | [] => ""
  | x :: xs => f x ++ concatMap f xs

theorem strInfix_concatMap {α : Type} (f : α → String) (l : List α) (x : α)
    (hx : x ∈ l) : strInfix (f x) (concatMap f l) := by
  induction l with
  | nil => simp at hx
  | cons y ys ih =>
    rcases List.mem_cons.mp hx with he | hm
    · subst he
      exact strInfix_head _ _
    · exact strInfix_appendR _ _ _ (ih hm)

/-! ## JavaScript numbers

`TemplateData` fields typed `number` in TypeScript are modelled as rationals.
`toFixed2` models `Number.prototype.toFixed(2)` by exact rational rounding
(it agrees with JavaScript on every number whose double representation is exact
at the scale involved, in particular on all values used in the claims).
`jsNumToString` models default number-to-string interpolation `${n}`: sign,
integer digits, and, for non-integers, a point followed by fractional digits
(computed exactly for terminating decimal expansions, truncated at 20 digits
otherwise; JavaScript likewise prints a finite expansion).
-/

/-- Decimal digit character; only ever applied to `k < 10`. -/
def digitChar (k : Nat) : Char :=
  if k = 0 then '0' else if k = 1 then '1' else if k = 2 then '2'
  else if k = 3 then '3' else if k = 4 then '4' else if k = 5 then '5'
  else if k = 6 then '6' else if k = 7 then '7' else if k = 8 then '8' else '9'

theorem digitChar_ne_lt_gt (k : Nat) : digitChar k ≠ '<' ∧ digitChar k ≠ '>' := by
  unfold digitChar
  split_ifs <;> exact ⟨by decide, by decide⟩

/-- Decimal digits of `n`, most significant first, with explicit recursion fuel
(the fuel `n + 1` always suffices since `n / 10 < n` for `n ≥ 10`). -/
def natDigitsAux : Nat → Nat → List Char
  | 0, _ => []
  | fuel + 1, n =>
    if n < 10 then [digitChar n]
    else natDigitsAux fuel (n / 10) ++ [digitChar (n % 10)]

/-- Decimal digits of `n`, most significant first. -/
def natDigits (n : Nat) : List Char := natDigitsAux (n + 1) n

theorem natDigitsAux_ne_lt_gt (fuel n : Nat) :
    ∀ c ∈ natDigitsAux fuel n, c ≠ '<' ∧ c ≠ '>' := by
  induction fuel generalizing n with
  | zero => intro c hc; simp [natDigitsAux] at hc
  | succ fuel ih =>
    intro c hc
    rw [natDigitsAux] at hc
    split at hc
    · simp only [List.mem_singleton] at hc
      exact hc ▸ digitChar_ne_lt_gt n
    · rcases List.mem_append.mp hc with hm | hm
      · exact ih (n / 10) c hm
      · simp only [List.mem_singleton] at hm
        exact hm ▸ digitChar_ne_lt_gt (n % 10)

theorem natDigits_ne_lt_gt (n : Nat) : ∀ c ∈ natDigits n, c ≠ '<' ∧ c ≠ '>' :=
  natDigitsAux_ne_lt_gt (n + 1) n

/-- Decimal digits of `n` as a string. -/
def natToString (n : Nat) : String := ⟨natDigits n⟩

/-- Fractional decimal digits of `num / den`, at most `fuel` of them,
stopping as soon as the remainder vanishes. -/
def fracDigits : Nat → Nat → Nat → List Char
  | 0, _, _ => []
  | _ + 1, 0, _ => []
  | fuel + 1, num, den => digitChar (num * 10 / den) :: fracDigits fuel (num * 10 % den) den

theorem fracDigits_ne_lt_gt (fuel num den : Nat) :
    ∀ c ∈ fracDigits fuel num den, c ≠ '<' ∧ c ≠ '>' := by
  induction fuel generalizing num with
  | zero => intro c hc; simp [fracDigits] at hc
  | succ fuel ih =>
    intro c hc
    cases num with
    | zero => simp [fracDigits] at hc
    | succ m =>
      rw [show fracDigits (fuel + 1) (m + 1) den
            = digitChar ((m + 1) * 10 / den) :: fracDigits fuel ((m + 1) * 10 % den) den
          from rfl] at hc
      rcases List.mem_cons.mp hc with he | hm
      · exact he ▸ digitChar_ne_lt_gt _
      · exact ih _ c hm

/-- Default JavaScript number-to-string, on the rational model. -/
def jsNumToString (q : ℚ) : String :=
  let sign : String := if q < 0 then "-" else ""
  let a := q.num.natAbs
  let fr := fracDigits 20 (a % q.den) q.den
  sign ++ natToString (a / q.den) ++ (if fr.isEmpty then "" else "." ++ ⟨fr⟩)

/-- Two-decimal zero-padded digits for `n < 100`. -/
def pad2 (n : Nat) : String :=
  if n < 10 then "0" ++ natToString n else natToString n

/-- Models `Number.prototype.toFixed(2)` by exact rational rounding:
`r = ⌊100·q + 1/2⌋`, computed as the floor division
`(200·num + den) ÷ (2·den)`, is the integer closest to `100·q`, the larger one
in case of a tie — exactly the digit selection rule of `Number.prototype.toFixed`
(ECMA-262), applied to the exact rational value. -/
def toFixed2 (q : ℚ) : String :=
  let r : ℤ := Int.fdiv (200 * q.num + q.den) (2 * q.den)
  let sign : String := if r < 0 then "-" else ""
  sign ++ natToString (r.natAbs / 100) ++ "." ++ pad2 (r.natAbs % 100)

theorem jsNumToString_no_lt_gt (q : ℚ) :
    ∀ c ∈ (jsNumToString q).data, c ≠ '<' ∧ c ≠ '>' := by
  intro c hc
  unfold jsNumToString at hc
  simp only [str_data_append] at hc
  rcases List.mem_append.mp hc with hm | hm
  · rcases List.mem_append.mp hm with hs | hn
    · split at hs
      · simp only [String.data] at hs
        have : c = '-' := by simpa using hs
        exact this ▸ ⟨by decide, by decide⟩
      · simp [String.data] at hs
    · exact natDigits_ne_lt_gt _ c hn
  · split at hm
    · simp [String.data] at hm
    · simp only [str_data_append] at hm
      rcases List.mem_append.mp hm with hd | hf
      · have : c = '.' := by simpa [String.data] using hd
        exact this ▸ ⟨by decide, by decide⟩
      · exact fracDigits_ne_lt_gt _ _ _ c hf

theorem toFixed2_no_lt_gt (q : ℚ) :
    ∀ c ∈ (toFixed2 q).data, c ≠ '<' ∧ c ≠ '>' := by
  intro c hc
  unfold toFixed2 at hc
  simp only [str_data_append] at hc
  rcases List.mem_append.mp hc with hm | hp
  · rcases List.mem_append.mp hm with hm2 | hd
    · rcases List.mem_append.mp hm2 with hs | hn
      · split at hs
        · have : c = '-' := by simpa [String.data] using hs
          exact this ▸ ⟨by decide, by decide⟩
        · simp [String.data] at hs
      · exact natDigits_ne_lt_gt _ c hn
    · have : c = '.' := by simpa [String.data] using hd
      exact this ▸ ⟨by decide, by decide⟩
  · unfold pad2 at hp
    split at hp
    · simp only [str_data_append] at hp
      rcases List.mem_append.mp hp with h0 | hn
      · have : c = '0' := by simpa [String.data] using h0
        exact this ▸ ⟨by decide, by decide⟩
      · exact natDigits_ne_lt_gt _ c hn
    · exact natDigits_ne_lt_gt _ c hp

theorem no_lt_of_ne (s : String) (h : ∀ c ∈ s.data, c ≠ '<' ∧ c ≠ '>') :
    '<' ∉ s.data :=
  fun hm => (h '<' hm).1 rfl

/-! ## Template data records (§3 of the spec, `TemplateData` variants)

The `data` parameter shapes of `PrintService.generateInvoiceHTML`,
`generateReportHTML` and `generateLabelHTML` (PrintService.ts lines 167-172,
271-276, 339-343). Optional string fields are `Option String`; `number` fields
are rationals.
-/

structure InvoiceItem where
  name : String
  quantity : ℚ
  price : ℚ
deriving DecidableEq, Repr

structure InvoiceData where
  title : String
  items : List InvoiceItem
  total : ℚ
  date : Option String
deriving DecidableEq, Repr

structure ReportData where
  title : String
  content : String
  author : Option String
  date : Option String
deriving DecidableEq, Repr

structure LabelData where
  title : String
  address : Option String
  barcode : Option String
deriving DecidableEq, Repr

/-- Models the template-literal conditional `${x ? f(x) : ''}` on an optional
string field: JavaScript treats both `undefined` and the empty string as falsy. -/
def jsCondStr (x : Option String) (f : String → String) : String :=
  match x with
  | none => ""
  | some v => if v = "" then "" else f v

/-! ## The invoice template builder

`PrintService.generateInvoiceHTML` (PrintService.ts lines 167-266).
Every string literal below is transcribed verbatim from the TypeScript
template literals (braces written `\x7b`/`\x7d`, apostrophes `\x27`).
The template is assembled as a concatenation of those literal chunks and the
interpolated fields, split at the interpolation points (plus a few extra chunk
boundaries, which do not change the assembled string but let the theorems name
the pieces the claims talk about).
-/

/-- The document head shared by the three builder templates, up to and
including the `<title>` open tag. -/
def docTitleOpen : String := "\n      <!DOCTYPE html>\n      <html>\n        <head>\n          <meta charset=\"utf-8\">\n          <meta name=\"viewport\" content=\"width=device-width, initial-scale=1.0\">\n          <title>"

/-- Invoice template, from `</title>` through the `<style>` block to the
header `<h1>` open tag (PrintService.ts lines 192-241). -/
def invStyleHead : String := "</title>\n          <style>\n            body \x7b\n              font-family: Arial, sans-serif;\n              padding: 20px;\n              color: #333;\n            \x7d\n            .header \x7b\n              text-align: center;\n              margin-bottom: 30px;\n              border-bottom: 2px solid #6366f1;\n              padding-bottom: 20px;\n            \x7d\n            .header h1 \x7b\n              color: #6366f1;\n              margin: 0;\n            \x7d\n            table \x7b\n              width: 100%;\n              border-collapse: collapse;\n              margin: 20px 0;\n            \x7d\n            th, td \x7b\n              padding: 12px;\n              text-align: left;\n              border-bottom: 1px solid #e2e8f0;\n            \x7d\n            th \x7b\n              background-color: #f8fafc;\n              font-weight: bold;\n              color: #1e293b;\n            \x7d\n            .total \x7b\n              margin-top: 20px;\n              text-align: right;\n              font-size: 18px;\n              font-weight: bold;\n              color: #6366f1;\n            \x7d\n            .footer \x7b\n              margin-top: 40px;\n              text-align: center;\n              color: #64748b;\n              font-size: 12px;\n            \x7d\n          </style>\n        </head>\n        <body>\n          <div class=\"header\">\n            <h1>"

/-- Invoice template between `</h1>` and the date conditional (line 242). -/
def invAfterH1 : String := "</h1>\n            "

/-- Invoice template from after the date conditional through the table head,
up to (but not including) `<tbody>` (lines 243-253). -/
def invTableHead : String := "\n          </div>\n          <table>\n            <thead>\n              <tr>\n                <th>Item</th>\n                <th style=\"text-align: center;\">Qty</th>\n                <th style=\"text-align: right;\">Price</th>\n                <th style=\"text-align: right;\">Total</th>\n              </tr>\n            </thead>\n            "

/-- Invoice template from after `</tbody>` to the total amount (lines 256-258). -/
def invAfterTbody : String := "\n          </table>\n          <div class=\"total\">\n            "

/-- The label immediately preceding the interpolated total (line 258). -/
def invTotalLabel : String := "Total: $"

/-- Invoice template tail (lines 259-265). -/
def invTail : String := "\n          </div>\n          <div class=\"footer\">\n            <p>Thank you for your business!</p>\n          </div>\n        </body>\n      </html>\n    "

/-- Item row template (lines 175-182): opening, `<tr>` and first `<td>`. -/
def rowOpen : String := "\n      <tr>\n        <td>"

/-- `</td>`, closing a table cell. -/
def tdClose : String := "</td>"

/-- Row template whitespace between two cells. -/
def rowWs : String := "\n        "

/-- Open tag of the centred quantity cell. -/
def tdCenterOpen : String := "<td style=\"text-align: center;\">"

/-- Open tag of a right-aligned money cell. -/
def tdRightOpen : String := "<td style=\"text-align: right;\">"

/-- End of an item row: closing `</tr>` and trailing template whitespace. -/
def rowEnd : String := "\n      </tr>\n    "

/-- One invoice item row (PrintService.ts lines 175-182):
`<tr><td>{name}</td><td>{quantity}</td><td>${price.toFixed(2)}</td>`
`<td>${(quantity*price).toFixed(2)}</td></tr>` with the exact template
whitespace. -/
def invoiceRow (it : InvoiceItem) : String :=
  rowOpen ++ it.name
  ++ tdClose ++ rowWs ++ tdCenterOpen ++ jsNumToString it.quantity
  ++ tdClose ++ rowWs ++ tdRightOpen ++ "$" ++ toFixed2 it.price
  ++ tdClose ++ rowWs ++ tdRightOpen ++ "$" ++ toFixed2 (it.quantity * it.price)
  ++ tdClose ++ rowEnd

/-- `itemsHTML` (lines 173-184): the rows of all items, joined with `''`. -/
def invoiceItemsHTML (items : List InvoiceItem) : String :=
  concatMap invoiceRow items

/-- The text between `<tbody>` and `</tbody>` (lines 253-255). -/
def invoiceTbody (d : InvoiceData) : String :=
  "\n              " ++ invoiceItemsHTML d.items ++ "\n            "

/-- Everything of the invoice document before `<tbody>`. -/
def invoiceHead (d : InvoiceData) : String :=
  docTitleOpen ++ d.title ++ invStyleHead ++ d.title ++ invAfterH1
  ++ jsCondStr d.date (fun v => "<p>Date: " ++ v ++ "</p>")
  ++ invTableHead

/-- Everything of the invoice document after `</tbody>`. -/
def invoiceTail (d : InvoiceData) : String :=
  invAfterTbody ++ invTotalLabel ++ toFixed2 d.total ++ invTail

/-- `PrintService.generateInvoiceHTML` (PrintService.ts lines 167-266). -/
def generateInvoiceHTML (d : InvoiceData) : String :=
  invoiceHead d ++ "<tbody>" ++ invoiceTbody d ++ "</tbody>" ++ invoiceTail d

/-! ## The report template builder

`PrintService.generateReportHTML` (PrintService.ts lines 271-334). -/

/-- Report template, `</title>` through the `<style>` block to the header
`<h1>` open tag (lines 283-319). -/
def repStyleHead : String := "</title>\n          <style>\n            body \x7b\n              font-family: \x27Georgia\x27, serif;\n              padding: 40px;\n              color: #1e293b;\n              line-height: 1.6;\n            \x7d\n            .header \x7b\n              border-bottom: 3px solid #6366f1;\n              padding-bottom: 20px;\n              margin-bottom: 30px;\n            \x7d\n            .header h1 \x7b\n              color: #6366f1;\n              margin: 0 0 10px 0;\n            \x7d\n            .meta \x7b\n              color: #64748b;\n              font-size: 14px;\n            \x7d\n            .content \x7b\n              margin-top: 30px;\n            \x7d\n            .footer \x7b\n              margin-top: 40px;\n              padding-top: 20px;\n              border-top: 1px solid #e2e8f0;\n              text-align: center;\n              color: #64748b;\n              font-size: 12px;\n            \x7d\n          </style>\n        </head>\n        <body>\n          <div class=\"header\">\n            <h1>"

/-- Report template between `</h1>` and the author conditional (lines 319-321). -/
def repMetaOpen : String := "</h1>\n            <div class=\"meta\">\n              "

/-- Report template between the author and date conditionals (line 322). -/
def repMetaSep : String := "\n              "

/-- Report template from after the date conditional to just before the content
div open tag (lines 323-325). -/
def repAfterMeta : String := "\n            </div>\n          </div>\n          "

/-- The content div open tag (line 325). -/
def repContentOpen : String := "<div class=\"content\">"

/-- Template whitespace between the content div open tag and the interpolated
content (line 326). -/
def repContentWs : String := "\n            "

/-- The content div close tag with its leading template whitespace (line 327). -/
def repContentClose : String := "\n          </div>"

/-- Report template tail (lines 328-333). -/
def repTail : String := "\n          <div class=\"footer\">\n            <p>Generated using Expo Print</p>\n          </div>\n        </body>\n      </html>\n    "

/-- `PrintService.generateReportHTML` (PrintService.ts lines 271-334). -/
def generateReportHTML (d : ReportData) : String :=
  docTitleOpen ++ d.title ++ repStyleHead ++ d.title ++ repMetaOpen
  ++ jsCondStr d.author (fun a => "<p>Author: " ++ a ++ "</p>")
  ++ repMetaSep
  ++ jsCondStr d.date (fun v => "<p>Date: " ++ v ++ "</p>")
  ++ repAfterMeta ++ repContentOpen ++ repContentWs ++ d.content
  ++ repContentClose ++ repTail

/-! ## The label template builder

`PrintService.generateLabelHTML` (PrintService.ts lines 339-386). -/

/-- Label template, `</title>` through the `<style>` block to just before the
label-title div (lines 350-380), transcribed in three consecutive pieces
(`labStyle1 ++ labStyle2 ++ labStyle3` is the literal text; the split at two
CSS rule boundaries only serves the occurrence-counting proofs). -/
def labStyle1 : String := "</title>\n          <style>\n            body \x7b\n              font-family: Arial, sans-serif;\n              padding: 20px;\n              border: 2px solid #000;\n              width: 300px;\n              margin: 0 auto;\n            \x7d\n            .label-title \x7b\n              font-size: 20px;\n              font-weight: bold;\n              margin-bottom: 10px;\n              text-align: center;\n            \x7d\n            "

/-- Second piece of the label `<style>` block: the `.label-address` rule. -/
def labStyle2 : String := ".label-address \x7b\n              font-size: 14px;\n              line-height: 1.4;\n              margin-bottom: 10px;\n            \x7d\n            "

/-- Third piece: the `.barcode` rule, `</style>`, and the body opening. -/
def labStyle3 : String := ".barcode \x7b\n              text-align: center;\n              font-family: monospace;\n              font-size: 24px;\n              letter-spacing: 2px;\n              margin-top: 10px;\n            \x7d\n          </style>\n        </head>\n        <body>\n          "

/-- The label-title div open tag (line 380). -/
def labelTitleOpen : String := "<div class=\"label-title\">"

/-- Label template between the title div and the address conditional
(lines 380-381). -/
def labAfterTitle : String := "</div>\n          "

/-- The label-address container open tag (line 381): the marker whose
presence claim C7 is about. -/
def labelAddrOpen : String := "<div class=\"label-address\">"

/-- The barcode div open tag (line 382). -/
def labelBarcodeOpen : String := "<div class=\"barcode\">"

/-- Label template between the address and barcode conditionals (line 382). -/
def labBetween : String := "\n          "

/-- Label template tail (lines 383-385). -/
def labTail : String := "\n        </body>\n      </html>\n    "

/-- `PrintService.generateLabelHTML` (PrintService.ts lines 339-386). -/
def generateLabelHTML (d : LabelData) : String :=
  docTitleOpen ++ d.title ++ labStyle1 ++ labStyle2 ++ labStyle3 ++ labelTitleOpen ++ d.title
  ++ labAfterTitle
  ++ jsCondStr d.address (fun a => labelAddrOpen ++ a ++ "</div>")
  ++ labBetween
  ++ jsCondStr d.barcode (fun b => labelBarcodeOpen ++ b ++ "</div>")
  ++ labTail

/-! ## HTML escaping and the text-file print path

`FileService.printTextFile` in the expo-file-system enabled variant
(src/unnamed/part_000, lines 318-346) interpolates
`content.replace(/</g, '&lt;').replace(/>/g, '&gt;')` into its template.
-/

/-- One character of the escaped text. -/
def escChar (c : Char) : String :=
  if c = '<' then "&lt;" else if c = '>' then "&gt;" else ⟨[c]⟩

/-- Models `content.replace(/</g, '&lt;').replace(/>/g, '&gt;')`
(part_000 line 336). The two global single-character replacements compose to
the per-character map below, because the replacement texts `&lt;` and `&gt;`
contain neither `<` nor `>`, so the second replacement never touches output of
the first and neither replacement can re-create a match. -/
def escapeLtGt (s : String) : String := concatMap escChar s.data

/-- Text-file template before the interpolated escaped content
(part_000 lines 321-336). -/
def textFileHead : String := "\n        <!DOCTYPE html>\n        <html>\n          <head>\n            <meta charset=\"utf-8\">\n            <style>\n              body \x7b\n                font-family: \x27Courier New\x27, monospace;\n                padding: 20px;\n                white-space: pre-wrap;\n                word-wrap: break-word;\n              \x7d\n            </style>\n          </head>\n          <body>\n            "

/-- Text-file template after the interpolated escaped content
(lines 336-339). -/
def textFileTail : String := "\n          </body>\n        </html>\n      "

/-- The HTML that `FileService.printTextFile` (filesystem variant,
part_000 lines 318-346) builds from the file content it has read. -/
def printTextFileHTML (content : String) : String :=
  textFileHead ++ escapeLtGt content ++ textFileTail

/-! ## Auxiliary HTML wrappers used by the delegating print methods -/

/-- The HTML `ImageService.printImage` and `ImageService.generateImagePDF`
build around an image URI (ImageService.ts lines 95-121 and 130-156; the two
template literals are identical). -/
def imageHTML (imageUri : String) : String :=
  "\n      <!DOCTYPE html>\n      <html>\n        <head>\n          <meta charset=\"utf-8\">\n          <meta name=\"viewport\" content=\"width=device-width, initial-scale=1.0\">\n          <style>\n            body \x7b\n              margin: 0;\n              padding: 20px;\n              display: flex;\n              justify-content: center;\n              align-items: center;\n              min-height: 100vh;\n            \x7d\n            img \x7b\n              max-width: 100%;\n              height: auto;\n              display: block;\n            \x7d\n          </style>\n        </head>\n        <body>\n          <img src=\""
  ++ imageUri
  ++ "\" alt=\"Selected Image\" />\n        </body>\n      </html>\n    "

/-- The HTML `FileService.printPDF` (filesystem variant, part_000 lines
285-313) builds around a PDF URI. -/
def pdfIframeHTML (uri : String) : String :=
  "\n        <!DOCTYPE html>\n        <html>\n          <head>\n            <meta charset=\"utf-8\">\n            <style>\n              body \x7b\n                margin: 0;\n                padding: 0;\n              \x7d\n              iframe \x7b\n                width: 100%;\n                height: 100vh;\n                border: none;\n              \x7d\n            </style>\n          </head>\n          <body>\n            <iframe src=\""
  ++ uri
  ++ "\"></iframe>\n          </body>\n        </html>\n      "

/-- The HTML `FileService.printImageFile` (filesystem variant, part_000 lines
351-385) builds around an image URI. -/
def imageFileHTML (uri : String) : String :=
  "\n        <!DOCTYPE html>\n        <html>\n          <head>\n            <meta charset=\"utf-8\">\n            <style>\n              body \x7b\n                margin: 0;\n                padding: 20px;\n                display: flex;\n                justify-content: center;\n                align-items: center;\n                min-height: 100vh;\n              \x7d\n              img \x7b\n                max-width: 100%;\n                height: auto;\n                display: block;\n              \x7d\n            </style>\n          </head>\n          <body>\n            <img src=\""
  ++ uri
  ++ "\" alt=\"File Image\" />\n          </body>\n        </html>\n      "

/-! ## Effectful façade model

Each façade method is embedded as a function that receives the outcome of the
platform call it delegates to (an `Except JSError _` value, or a
`PermStatus` for a permission request) and the current `World`, and returns
its own outcome together with the updated `World`. The `World` records the
observable effects the claims talk about: console output, alert dialogs,
which platform APIs were invoked, and the HTML handed to the print engine.
-/

/-- A JavaScript error value, identified by its message. Façade methods that
rethrow pass the value through unchanged. -/
structure JSError where
  message : String
deriving DecidableEq, Repr

/-- Observable effects. `consoleLog` entries are the literal tag passed to
`console.error`/`console.warn`/`console.log` paired with the error argument
when one is logged alongside. -/
structure World where
  consoleLog : List (String × Option JSError)
  alerts : List String
  platformCalls : List String
  printedJobs : List String
deriving DecidableEq, Repr

/-- Append a `console.error(tag, error)` entry. -/
def pushLog (w : World) (tag : String) (e : JSError) : World :=
  { w with consoleLog := w.consoleLog ++ [(tag, some e)] }

/-- Append a `console.log(msg)` / `console.warn(msg)` entry. -/
def pushPlainLog (w : World) (msg : String) : World :=
  { w with consoleLog := w.consoleLog ++ [(msg, none)] }

/-- Record an invocation of a platform API. -/
def pushCall (w : World) (name : String) : World :=
  { w with platformCalls := w.platformCalls ++ [name] }

/-- Record an `Alert.alert` dialog by its message text. -/
def pushAlert (w : World) (msg : String) : World :=
  { w with alerts := w.alerts ++ [msg] }

/-- Record a successfully submitted print/render job. -/
def pushJob (w : World) (html : String) : World :=
  { w with printedJobs := w.printedJobs ++ [html] }

/-- `Platform.OS` values the services branch on. -/
inductive OSKind
  | web
  | ios
  | android
deriving DecidableEq, Repr

/-- Status returned by an expo-image-picker permission request. -/
inductive PermStatus
  | granted
  | denied
  | undetermined
deriving DecidableEq, Repr

/-- Result shape of `Print.printToFileAsync` (PrintService.ts lines 28-32,
`PrintResult`). -/
structure PrintResult where
  uri : Option String
  base64 : Option String
  numberOfPages : Option Nat
deriving DecidableEq, Repr

/-- Result shape of the expo-image-picker launchers: a cancellation flag and
the picked asset URIs. -/
structure ImagePickResult where
  canceled : Bool
  assets : List String
deriving DecidableEq, Repr

/-- Result shape of `DocumentPicker.getDocumentAsync`: a cancellation flag and
the picked asset URIs. -/
structure DocPickResult where
  canceled : Bool
  assets : List String
deriving DecidableEq, Repr

/-- Models `x || ''` on an optional JavaScript string (both `undefined` and
the empty string are falsy). -/
def jsStringOrEmpty (x : Option String) : String :=
  match x with
  | none => ""
  | some v => if v = "" then "" else v

namespace PrintService

/-- `PrintService.printHTML` (PrintService.ts lines 38-48): delegate to
`Print.printAsync`, catch, `console.error('Print error:', error)`, rethrow. -/
def printHTML (html : String) (printAsync : Except JSError Unit) (w : World) :
    Except JSError Unit × World :=
  match printAsync with
  | .ok u => (.ok u, pushJob (pushCall w "printAsync") html)
  | .error e => (.error e, pushLog (pushCall w "printAsync") "Print error:" e)

/-- `PrintService.printToFile` (lines 53-68): delegate to
`Print.printToFileAsync`, catch, log, rethrow. -/
def printToFile (html : String) (printToFileAsync : Except JSError PrintResult)
    (w : World) : Except JSError PrintResult × World :=
  match printToFileAsync with
  | .ok r => (.ok r, pushJob (pushCall w "printToFileAsync") html)
  | .error e =>
      (.error e, pushLog (pushCall w "printToFileAsync") "Print to file error:" e)

/-- `PrintService.printToFileBase64` (lines 73-88): delegate to
`Print.printToFileAsync` with `base64: true`, return `result.base64 || ''`;
catch, log, rethrow. -/
def printToFileBase64 (html : String)
    (printToFileAsync : Except JSError PrintResult) (w : World) :
    Except JSError String × World :=
  match printToFileAsync with
  | .ok r => (.ok (jsStringOrEmpty r.base64), pushJob (pushCall w "printToFileAsync") html)
  | .error e =>
      (.error e, pushLog (pushCall w "printToFileAsync") "Print to base64 error:" e)

/-- `PrintService.printWithOrientation` (lines 93-106). -/
def printWithOrientation (html : String) (printAsync : Except JSError Unit)
    (w : World) : Except JSError Unit × World :=
  match printAsync with
  | .ok u => (.ok u, pushJob (pushCall w "printAsync") html)
  | .error e =>
      (.error e, pushLog (pushCall w "printAsync") "Print with orientation error:" e)

/-- `PrintService.printWithMargins` (lines 111-124). -/
def printWithMargins (html : String) (printAsync : Except JSError Unit)
    (w : World) : Except JSError Unit × World :=
  match printAsync with
  | .ok u => (.ok u, pushJob (pushCall w "printAsync") html)
  | .error e =>
      (.error e, pushLog (pushCall w "printAsync") "Print with margins error:" e)

/-- `PrintService.generateAndSharePDF` (lines 129-149): render to file with
`Print.printToFileAsync`, then query `Sharing.isAvailableAsync`, then share
with `Sharing.shareAsync` when sharing is available, else `console.log` the
saved location. All three platform calls are awaited inside the one try
block, so a failure of any of them is caught, logged with
`'Generate and share PDF error:'` and rethrown. Each call's outcome is an
explicit argument; `isAvailableAsync` is `Except JSError Bool` because the
availability query itself can reject. -/
def generateAndSharePDF (html : String)
    (printToFileAsync : Except JSError PrintResult)
    (isAvailableAsync : Except JSError Bool)
    (shareAsync : Except JSError Unit) (w : World) :
    Except JSError Unit × World :=
  match printToFileAsync with
  | .error e =>
      (.error e, pushLog (pushCall w "printToFileAsync") "Generate and share PDF error:" e)
  | .ok _ =>
      let w1 := pushJob (pushCall w "printToFileAsync") html
      match isAvailableAsync with
      | .error e =>
          (.error e, pushLog (pushCall w1 "isAvailableAsync") "Generate and share PDF error:" e)
      | .ok avail =>
          let w2 := pushCall w1 "isAvailableAsync"
          if avail then
            match shareAsync with
            | .ok u => (.ok u, pushCall w2 "shareAsync")
            | .error e =>
                (.error e, pushLog (pushCall w2 "shareAsync") "Generate and share PDF error:" e)
          else
            (.ok (), pushPlainLog w2 "Sharing not available. PDF saved at:")

end PrintService

namespace FileService

/-- `FileService.pickDocument` (part_000 lines 223-235 in the filesystem
variant; lines 24-36 of the first variant are identical): delegate to
`DocumentPicker.getDocumentAsync`, catch, log, rethrow. -/
def pickDocument (getDocumentAsync : Except JSError DocPickResult) (w : World) :
    Except JSError DocPickResult × World :=
  match getDocumentAsync with
  | .ok r => (.ok r, pushCall w "getDocumentAsync")
  | .error e =>
      (.error e, pushLog (pushCall w "getDocumentAsync") "Document picker error:" e)

/-- `FileService.pickPDF` (part_000 lines 240-252). -/
def pickPDF (getDocumentAsync : Except JSError DocPickResult) (w : World) :
    Except JSError DocPickResult × World :=
  match getDocumentAsync with
  | .ok r => (.ok r, pushCall w "getDocumentAsync")
  | .error e =>
      (.error e, pushLog (pushCall w "getDocumentAsync") "PDF picker error:" e)

/-- `FileService.readFileAsBase64` (part_000 lines 257-267, filesystem
variant): delegate to `FileSystem.readAsStringAsync`, catch, log, rethrow. -/
def readFileAsBase64 (readAsStringAsync : Except JSError String) (w : World) :
    Except JSError String × World :=
  match readAsStringAsync with
  | .ok s => (.ok s, pushCall w "readAsStringAsync")
  | .error e =>
      (.error e, pushLog (pushCall w "readAsStringAsync") "Read file error:" e)

/-- `FileService.readFileAsString` (part_000 lines 272-280, filesystem
variant). -/
def readFileAsString (readAsStringAsync : Except JSError String) (w : World) :
    Except JSError String × World :=
  match readAsStringAsync with
  | .ok s => (.ok s, pushCall w "readAsStringAsync")
  | .error e =>
      (.error e, pushLog (pushCall w "readAsStringAsync") "Read file error:" e)

/-- `FileService.printPDF` (part_000 lines 285-313, filesystem variant):
wrap the URI in an iframe document, delegate to `PrintService.printHTML`,
catch, log, rethrow. -/
def printPDF (uri : String) (printAsync : Except JSError Unit) (w : World) :
    Except JSError Unit × World :=
  match PrintService.printHTML (pdfIframeHTML uri) printAsync w with
  | (.ok u, w1) => (.ok u, w1)
  | (.error e, w1) => (.error e, pushLog w1 "Print PDF error:" e)

/-- `FileService.printTextFile` (part_000 lines 318-346, filesystem variant):
read the file as text via `readFileAsString`, escape `<` and `>` in the
content, interpolate it into the text template and print it; each failure is
caught, logged and rethrown. -/
def printTextFile (readAsStringAsync : Except JSError String)
    (printAsync : Except JSError Unit) (w : World) :
    Except JSError Unit × World :=
  match readFileAsString readAsStringAsync w with
  | (.error e, w1) => (.error e, pushLog w1 "Print text file error:" e)
  | (.ok content, w1) =>
      match PrintService.printHTML (printTextFileHTML content) printAsync w1 with
      | (.ok u, w2) => (.ok u, w2)
      | (.error e, w2) => (.error e, pushLog w2 "Print text file error:" e)

/-- `FileService.printImageFile` (part_000 lines 351-385, filesystem
variant). -/
def printImageFile (uri : String) (printAsync : Except JSError Unit)
    (w : World) : Except JSError Unit × World :=
  match PrintService.printHTML (imageFileHTML uri) printAsync w with
  | (.ok u, w1) => (.ok u, w1)
  | (.error e, w1) => (.error e, pushLog w1 "Print image file error:" e)

end FileService

namespace ImageService

/-- `ImageService.requestCameraPermissions` (ImageService.ts lines 15-31):
on web, return `true` without consulting the platform; otherwise request the
permission, and on any status other than `granted` show an alert and return
`false`. -/
def requestCameraPermissions (os : OSKind) (permResp : PermStatus) (w : World) :
    Bool × World :=
  if os = .web then (true, w)
  else
    let w1 := pushCall w "requestCameraPermissionsAsync"
    if permResp = .granted then (true, w1)
    else (false, pushAlert w1 "Camera permission is required to take photos.")

/-- `ImageService.requestMediaLibraryPermissions` (lines 36-52). -/
def requestMediaLibraryPermissions (os : OSKind) (permResp : PermStatus)
    (w : World) : Bool × World :=
  if os = .web then (true, w)
  else
    let w1 := pushCall w "requestMediaLibraryPermissionsAsync"
    if permResp = .granted then (true, w1)
    else (false, pushAlert w1 "Media library permission is required to select images.")

/-- `ImageService.pickImageFromGallery` (lines 57-71): check the media-library
permission, throw `Error('Media library permission denied')` when it is not
granted, otherwise launch the gallery picker and return its result. There is
no try/catch: a failure of the launcher propagates to the caller as is,
without any console logging. -/
def pickImageFromGallery (os : OSKind) (permResp : PermStatus)
    (launchImageLibraryAsync : Except JSError ImagePickResult) (w : World) :
    Except JSError ImagePickResult × World :=
  match requestMediaLibraryPermissions os permResp w with
  | (false, w1) => (.error ⟨"Media library permission denied"⟩, w1)
  | (true, w1) => (launchImageLibraryAsync, pushCall w1 "launchImageLibraryAsync")

/-- `ImageService.takePhoto` (lines 76-89): like `pickImageFromGallery` with
the camera permission and `launchCameraAsync`; again no try/catch. -/
def takePhoto (os : OSKind) (permResp : PermStatus)
    (launchCameraAsync : Except JSError ImagePickResult) (w : World) :
    Except JSError ImagePickResult × World :=
  match requestCameraPermissions os permResp w with
  | (false, w1) => (.error ⟨"Camera permission denied"⟩, w1)
  | (true, w1) => (launchCameraAsync, pushCall w1 "launchCameraAsync")

/-- `ImageService.printImage` (lines 94-124): build the image document and
delegate to `PrintService.printHTML`; no try/catch of its own. -/
def printImage (imageUri : String) (printAsync : Except JSError Unit)
    (w : World) : Except JSError Unit × World :=
  PrintService.printHTML (imageHTML imageUri) printAsync w

/-- `ImageService.generateImagePDF` (lines 129-159): build the image document
and delegate to `PrintService.printToFile`; no try/catch of its own. -/
def generateImagePDF (imageUri : String)
    (printToFileAsync : Except JSError PrintResult) (w : World) :
    Except JSError PrintResult × World :=
  PrintService.printToFile (imageHTML imageUri) printToFileAsync w

end ImageService

/-! ## The template builders as effectful runs

The three builders contain no platform call, no logging and no state access:
their bodies are single template-literal expressions over `data`
(PrintService.ts lines 167-386). Run in the state-passing embedding they
therefore return the pure string and pass the `World` through untouched. -/

/-- `generateInvoiceHTML` run in the state-passing embedding. -/
def generateInvoiceHTMLRun (d : InvoiceData) (w : World) : String × World :=
  (generateInvoiceHTML d, w)

/-- `generateReportHTML` run in the state-passing embedding. -/
def generateReportHTMLRun (d : ReportData) (w : World) : String × World :=
  (generateReportHTML d, w)

/-- `generateLabelHTML` run in the state-passing embedding. -/
def generateLabelHTMLRun (d : LabelData) (w : World) : String × World :=
  (generateLabelHTML d, w)

/-! ## Counting the `<tr>` markers of the invoice table body -/

/-- The table-row marker claim C1 counts. -/
def trMark : List Char := "<tr>".data

theorem trMark_drop_head :
    ∀ j ∈ List.range trMark.length, 0 < j → (trMark.drop j).head? ≠ some '<' := by
  decide

theorem head?_append_of_head? {α : Type} (l r : List α) (a : α)
    (h : l.head? = some a) : (l ++ r).head? = some a := by
  cases l with
  | nil => simp at h
  | cons c t => simpa using h

/-- Splitting an occurrence count at a boundary whose right side starts
with `<`: no `<tr>` occurrence can straddle it. -/
theorem occ_tr_step_field (f rest : List Char) (hhead : rest.head? = some '<') :
    occCount trMark (f ++ rest) = occCount trMark f + occCount trMark rest :=
  occCount_append_of_spanFreeR _ _ _ (spanFreeR_of_head _ _ '<' hhead trMark_drop_head)

/-- Splitting an occurrence count after a span-free left chunk. -/
theorem occ_step_lit (pat c rest : List Char) (h : SpanFreeL pat c) :
    occCount pat (c ++ rest) = occCount pat c + occCount pat rest :=
  occCount_append_of_spanFreeL _ _ _ h

theorem occ_invoiceRow (it : InvoiceItem) :
    occCount trMark (invoiceRow it).data = 1 + occCount trMark it.name.data := by
  have hq := no_lt_of_ne _ (jsNumToString_no_lt_gt it.quantity)
  have hp := no_lt_of_ne _ (toFixed2_no_lt_gt it.price)
  have ht := no_lt_of_ne _ (toFixed2_no_lt_gt (it.quantity * it.price))
  simp only [invoiceRow, str_data_append, List.append_assoc]
  rw [occ_step_lit trMark rowOpen.data _ (by decide)]
  rw [occ_tr_step_field it.name.data _
        (head?_append_of_head? tdClose.data _ '<' rfl)]
  rw [occ_step_lit trMark tdClose.data _ (by decide)]
  rw [occ_step_lit trMark rowWs.data _ (by decide)]
  rw [occ_step_lit trMark tdCenterOpen.data _ (by decide)]
  rw [occ_tr_step_field (jsNumToString it.quantity).data _
        (head?_append_of_head? tdClose.data _ '<' rfl)]
  rw [occ_step_lit trMark tdClose.data _ (by decide)]
  rw [occ_step_lit trMark rowWs.data _ (by decide)]
  rw [occ_step_lit trMark tdRightOpen.data _ (by decide)]
  rw [occ_step_lit trMark ("$" : String).data _ (by decide)]
  rw [occ_tr_step_field (toFixed2 it.price).data _
        (head?_append_of_head? tdClose.data _ '<' rfl)]
  rw [occ_step_lit trMark tdClose.data _ (by decide)]
  rw [occ_step_lit trMark rowWs.data _ (by decide)]
  rw [occ_step_lit trMark tdRightOpen.data _ (by decide)]
  rw [occ_step_lit trMark ("$" : String).data _ (by decide)]
  rw [occ_tr_step_field (toFixed2 (it.quantity * it.price)).data _
        (head?_append_of_head? tdClose.data _ '<' rfl)]
  rw [occ_step_lit trMark tdClose.data _ (by decide)]
  rw [occCount_eq_zero_of_not_mem trMark _ '<' rfl hq]
  rw [occCount_eq_zero_of_not_mem trMark _ '<' rfl hp]
  rw [occCount_eq_zero_of_not_mem trMark _ '<' rfl ht]
  have h1 : occCount trMark rowOpen.data = 1 := by decide
  have h2 : occCount trMark tdClose.data = 0 := by decide
  have h3 : occCount trMark rowWs.data = 0 := by decide
  have h4 : occCount trMark tdCenterOpen.data = 0 := by decide
  have h5 : occCount trMark tdRightOpen.data = 0 := by decide
  have h6 : occCount trMark ("$" : String).data = 0 := by decide
  have h7 : occCount trMark rowEnd.data = 0 := by decide
  omega

theorem spanFreeL_invoiceRow (it : InvoiceItem) :
    SpanFreeL trMark (invoiceRow it).data := by
  have he : (invoiceRow it).data
      = ((rowOpen ++ it.name ++ tdClose ++ rowWs ++ tdCenterOpen
          ++ jsNumToString it.quantity ++ tdClose ++ rowWs ++ tdRightOpen ++ "$"
          ++ toFixed2 it.price ++ tdClose ++ rowWs ++ tdRightOpen ++ "$"
          ++ toFixed2 (it.quantity * it.price)).data)
        ++ (tdClose ++ rowEnd).data := by
    simp [invoiceRow, str_data_append, List.append_assoc]
  rw [he]
  exact spanFreeL_of_tailSafe _ _ _ (by decide)

theorem occ_invoiceItems (items : List InvoiceItem) :
    occCount trMark (invoiceItemsHTML items).data
      = items.length + (items.map (fun it => occCount trMark it.name.data)).sum := by
  induction items with
  | nil => rfl
  | cons x xs ih =>
    show occCount trMark (invoiceRow x ++ invoiceItemsHTML xs).data = _
    rw [str_data_append,
        occCount_append_of_spanFreeL _ _ _ (spanFreeL_invoiceRow x),
        occ_invoiceRow, ih]
    simp only [List.map_cons, List.sum_cons, List.length_cons]
    omega

theorem occ_invoiceTbody (d : InvoiceData) :
    occCount trMark (invoiceTbody d).data
      = d.items.length
        + (d.items.map (fun it => occCount trMark it.name.data)).sum := by
  show occCount trMark
      ("\n              " ++ (invoiceItemsHTML d.items ++ "\n            ")).data = _
  rw [str_data_append, str_data_append]
  rw [occ_step_lit trMark _ _ (by decide)]
  rw [occCount_append_of_spanFreeR _ _ _
        (by decide : SpanFreeR trMark ("\n            " : String).data)]
  have h1 : occCount trMark ("\n              " : String).data = 0 := by decide
  have h2 : occCount trMark ("\n            " : String).data = 0 := by decide
  rw [h1, h2, occ_invoiceItems]
  omega

theorem occ_name_zero {s : String} (h : ¬ strInfix "<tr>" s) :
    occCount trMark s.data = 0 :=
  (occCount_eq_zero_iff trMark s.data (by decide)).mpr h

theorem invoiceItems_nth (items : List InvoiceItem)
    (h : ∀ it ∈ items, occCount trMark it.name.data = 0) :
    ∀ i, (hi : i < items.length) → ∃ pre suf,
      (invoiceItemsHTML items).data
          = pre ++ (invoiceRow (items.get ⟨i, hi⟩)).data ++ suf
      ∧ occCount trMark pre = i := by
  induction items with
  | nil => intro i hi; simp at hi
  | cons x xs ih =>
    intro i hi
    cases i with
    | zero =>
      refine ⟨[], (invoiceItemsHTML xs).data, ?_, rfl⟩
      show (invoiceRow x ++ invoiceItemsHTML xs).data = _
      simp [str_data_append]
    | succ i =>
      obtain ⟨pre, suf, heq, hocc⟩ :=
        ih (fun it hm => h it (List.mem_cons_of_mem _ hm)) i (by simpa using hi)
      refine ⟨(invoiceRow x).data ++ pre, suf, ?_, ?_⟩
      · show (invoiceRow x ++ invoiceItemsHTML xs).data = _
        rw [str_data_append, heq]
        simp [List.append_assoc]
      · rw [occCount_append_of_spanFreeL _ _ _ (spanFreeL_invoiceRow x),
            occ_invoiceRow x, h x (List.mem_cons_self x xs), hocc]
        omega

/-- Everything of an item row before the content of its last (line total)
cell. -/
def invoiceRowHead (it : InvoiceItem) : String :=
  rowOpen ++ it.name ++ tdClose ++ rowWs ++ tdCenterOpen ++ jsNumToString it.quantity
  ++ tdClose ++ rowWs ++ tdRightOpen ++ "$" ++ toFixed2 it.price
  ++ tdClose ++ rowWs ++ tdRightOpen

theorem invoiceRow_lastCell (it : InvoiceItem) :
    invoiceRow it
      = invoiceRowHead it
        ++ ("$" ++ toFixed2 (it.quantity * it.price) ++ tdClose) ++ rowEnd := by
  apply str_ext
  simp [invoiceRow, invoiceRowHead, str_data_append, List.append_assoc]

/-! ## Claim C1 -/

/-- C1 as stated is false on the code: item names are interpolated raw, so an
item whose name is the string `<tr>` adds a second row marker to the tbody.
With the single item `{name: "<tr>", quantity: 1, price: 1}` the tbody holds
2 markers while N = 1. -/
theorem claim1_counterexample :
    occCount trMark (invoiceTbody ⟨"X", [⟨"<tr>", 1, 1⟩], 1, none⟩).data = 2
    ∧ ([(⟨"<tr>", 1, 1⟩ : InvoiceItem)]).length = 1 := by
  constructor
  · rw [occ_invoiceTbody]
    decide
  · rfl

/-- C1 (amended): for every Invoice data record none of whose item names
contains the substring `<tr>`, the output of `generateInvoiceHTML` splits
around its `<tbody>`…`</tbody>` region, that region contains exactly N row
markers `<tr>` for N items, for each index i the i-th item's row appears in
the region preceded by exactly i markers (one marker per item, in item
order), and the last cell of each row holds the item's quantity multiplied by
its price formatted to two decimal places, prefixed with `$`. -/
theorem claim1_amended (d : InvoiceData)
    (h : ∀ it ∈ d.items, ¬ strInfix "<tr>" it.name) :
    generateInvoiceHTML d
        = invoiceHead d ++ "<tbody>" ++ invoiceTbody d ++ "</tbody>" ++ invoiceTail d
    ∧ occCount trMark (invoiceTbody d).data = d.items.length
    ∧ (∀ i, (hi : i < d.items.length) → ∃ pre suf,
        (invoiceTbody d).data = pre ++ (invoiceRow (d.items.get ⟨i, hi⟩)).data ++ suf
        ∧ occCount trMark pre = i)
    ∧ (∀ it ∈ d.items,
        invoiceRow it
          = invoiceRowHead it ++ ("$" ++ toFixed2 (it.quantity * it.price) ++ tdClose)
            ++ rowEnd) := by
  have h0 : ∀ it ∈ d.items, occCount trMark it.name.data = 0 :=
    fun it hm => occ_name_zero (h it hm)
  refine ⟨rfl, ?_, ?_, fun it _ => invoiceRow_lastCell it⟩
  · rw [occ_invoiceTbody]
    have hs : (d.items.map (fun it => occCount trMark it.name.data)).sum = 0 := by
      apply List.sum_eq_zero
      intro x hx
      obtain ⟨it, hm, he⟩ := List.mem_map.mp hx
      rw [← he]
      exact h0 it hm
    omega
  · intro i hi
    obtain ⟨pre, suf, heq, hocc⟩ := invoiceItems_nth d.items h0 i hi
    refine ⟨("\n              " : String).data ++ pre,
            suf ++ ("\n            " : String).data, ?_, ?_⟩
    · simp only [invoiceTbody, str_data_append, List.append_assoc]
      rw [heq]
      simp [List.append_assoc]
    · rw [occ_step_lit trMark _ _ (by decide), hocc]
      have hz : occCount trMark ("\n              " : String).data = 0 := by decide
      omega

/-- Witness for C1 (amended) at a concrete two-item invoice. -/
theorem claim1_witness :
    (∀ it ∈ ([⟨"Apple", 2, 3⟩, ⟨"Pen", 1, 5⟩] : List InvoiceItem),
        ¬ strInfix "<tr>" it.name)
    ∧ occCount trMark
        (invoiceTbody ⟨"Shop", [⟨"Apple", 2, 3⟩, ⟨"Pen", 1, 5⟩], 11, none⟩).data
      = 2 := by
  have hh : ∀ it ∈ ([⟨"Apple", 2, 3⟩, ⟨"Pen", 1, 5⟩] : List InvoiceItem),
      ¬ strInfix "<tr>" it.name := by decide
  exact ⟨hh,
    (claim1_amended ⟨"Shop", [⟨"Apple", 2, 3⟩, ⟨"Pen", 1, 5⟩], 11, none⟩ hh).2.1⟩

/-! ## Infix placement helpers -/

theorem strInfix_refl (p : String) : strInfix p p := ⟨[], [], by simp⟩

theorem strInfix_of_eq (p a b s : String) (h : s = a ++ p ++ b) : strInfix p s := by
  subst h
  exact strInfix_appendL _ _ _ (strInfix_appendR _ _ _ (strInfix_refl p))

theorem strInfix_trans {p q s : String} (h1 : strInfix p q) (h2 : strInfix q s) :
    strInfix p s := List.IsInfix.trans h1 h2

/-- Lift a substring of one item's row to the full invoice document. -/
theorem strInfix_row_doc (d : InvoiceData) (it : InvoiceItem) (hm : it ∈ d.items)
    (p : String) (h : strInfix p (invoiceRow it)) :
    strInfix p (generateInvoiceHTML d) := by
  have h2 : strInfix p (invoiceItemsHTML d.items) :=
    strInfix_trans h (strInfix_concatMap _ _ _ hm)
  have h3 : strInfix p (invoiceTbody d) := by
    unfold invoiceTbody
    exact strInfix_appendL _ _ _ (strInfix_appendR _ _ _ h2)
  unfold generateInvoiceHTML
  exact strInfix_appendL _ _ _ (strInfix_appendL _ _ _ (strInfix_appendR _ _ _ h3))

/-! ## Claim C2 -/

set_option maxRecDepth 4000 in
/-- C2 as stated is false on the code: the quantity cell interpolates
`item.quantity` raw (PrintService.ts line 178), not `toFixed(2)`. On the
invoice `{title:"T", items:[{name:"A", quantity:2, price:3}], total:6}` the
formatted string "2.00" appears nowhere in the table body (which holds all of
the price, quantity and line-total cells), while the quantity cell holds the
bare digit `2`. -/
theorem claim2_counterexample :
    ¬ strInfix "2.00" (invoiceTbody ⟨"T", [⟨"A", 2, 3⟩], 6, none⟩)
    ∧ strInfix (tdCenterOpen ++ "2" ++ tdClose)
        (invoiceTbody ⟨"T", [⟨"A", 2, 3⟩], 6, none⟩)
    ∧ generateInvoiceHTML ⟨"T", [⟨"A", 2, 3⟩], 6, none⟩
        = invoiceHead ⟨"T", [⟨"A", 2, 3⟩], 6, none⟩ ++ "<tbody>"
          ++ invoiceTbody ⟨"T", [⟨"A", 2, 3⟩], 6, none⟩ ++ "</tbody>"
          ++ invoiceTail ⟨"T", [⟨"A", 2, 3⟩], 6, none⟩ := by
  have hm : ((2 : ℚ) * 3) = 6 := by norm_num
  refine ⟨?_, ?_, rfl⟩
  · simp only [invoiceTbody, invoiceItemsHTML, concatMap, invoiceRow, hm]
    decide
  · simp only [invoiceTbody, invoiceItemsHTML, concatMap, invoiceRow, hm]
    decide

/-- C2 (amended): in the output of `generateInvoiceHTML`, the price, the line
total and the invoice total are rendered formatted to two decimal places
(each prefixed with `$`, the total after `Total: $`), while the quantity is
rendered by default JavaScript number-to-string conversion, without forced
decimals, in its centred cell. -/
theorem claim2_amended (d : InvoiceData) :
    (∀ it ∈ d.items,
        strInfix ("$" ++ toFixed2 it.price) (generateInvoiceHTML d)
        ∧ strInfix ("$" ++ toFixed2 (it.quantity * it.price)) (generateInvoiceHTML d)
        ∧ strInfix (tdCenterOpen ++ jsNumToString it.quantity ++ tdClose)
            (generateInvoiceHTML d))
    ∧ strInfix (invTotalLabel ++ toFixed2 d.total) (generateInvoiceHTML d) := by
  constructor
  · intro it hm
    refine ⟨?_, ?_, ?_⟩
    · apply strInfix_row_doc d it hm
      apply strInfix_of_eq _
        (rowOpen ++ it.name ++ tdClose ++ rowWs ++ tdCenterOpen
          ++ jsNumToString it.quantity ++ tdClose ++ rowWs ++ tdRightOpen)
        (tdClose ++ rowWs ++ tdRightOpen ++ "$"
          ++ toFixed2 (it.quantity * it.price) ++ tdClose ++ rowEnd)
      apply str_ext
      simp [invoiceRow, str_data_append, List.append_assoc]
    · apply strInfix_row_doc d it hm
      apply strInfix_of_eq _ (invoiceRowHead it) (tdClose ++ rowEnd)
      apply str_ext
      simp [invoiceRow, invoiceRowHead, str_data_append, List.append_assoc]
    · apply strInfix_row_doc d it hm
      apply strInfix_of_eq _ (rowOpen ++ it.name ++ tdClose ++ rowWs)
        (rowWs ++ tdRightOpen ++ "$" ++ toFixed2 it.price ++ tdClose ++ rowWs
          ++ tdRightOpen ++ "$" ++ toFixed2 (it.quantity * it.price) ++ tdClose
          ++ rowEnd)
      apply str_ext
      simp [invoiceRow, str_data_append, List.append_assoc]
  · apply strInfix_of_eq _
      (invoiceHead d ++ "<tbody>" ++ invoiceTbody d ++ "</tbody>" ++ invAfterTbody)
      invTail
    apply str_ext
    simp [generateInvoiceHTML, invoiceTail, str_data_append, List.append_assoc]

/-- Witness for C2 (amended): the line-total and quantity renderings on a
concrete single-item invoice. -/
theorem claim2_witness :
    strInfix ("$" ++ toFixed2 ((2 : ℚ) * 3))
        (generateInvoiceHTML ⟨"T", [⟨"A", 2, 3⟩], 6, none⟩)
    ∧ strInfix (tdCenterOpen ++ jsNumToString (2 : ℚ) ++ tdClose)
        (generateInvoiceHTML ⟨"T", [⟨"A", 2, 3⟩], 6, none⟩) :=
  ⟨((claim2_amended ⟨"T", [⟨"A", 2, 3⟩], 6, none⟩).1 ⟨"A", 2, 3⟩
      (List.mem_singleton.mpr rfl)).2.1,
   ((claim2_amended ⟨"T", [⟨"A", 2, 3⟩], 6, none⟩).1 ⟨"A", 2, 3⟩
      (List.mem_singleton.mpr rfl)).2.2⟩

/-! ## Claim C5 -/

/-- C5: on the invoice `{title:"Invoice #1", items:[{name:"A", quantity:2,
price:10}], total:20}` the item row's line-total cell holds `$20.00` (the
full cell up to the row end appears in the output) and the total block holds
`Total: $20.00`. -/
theorem claim5_concrete_invoice :
    strInfix "<td style=\"text-align: right;\">$20.00</td>\n      </tr>"
      (generateInvoiceHTML ⟨"Invoice #1", [⟨"A", 2, 10⟩], 20, none⟩)
    ∧ strInfix "Total: $20.00"
      (generateInvoiceHTML ⟨"Invoice #1", [⟨"A", 2, 10⟩], 20, none⟩) := by
  have htf : toFixed2 ((2 : ℚ) * 10) = "20.00" := by
    rw [show ((2 : ℚ) * 10) = 20 by norm_num]
    decide
  have htot : toFixed2 (20 : ℚ) = "20.00" := by decide
  constructor
  · apply strInfix_congr _
      (tdRightOpen ++ "$" ++ toFixed2 ((2 : ℚ) * 10) ++ tdClose ++ "\n      </tr>")
    · rw [htf]
      decide
    · apply strInfix_row_doc _ ⟨"A", 2, 10⟩ (List.mem_singleton.mpr rfl)
      apply strInfix_of_eq _
        (rowOpen ++ "A" ++ tdClose ++ rowWs ++ tdCenterOpen
          ++ jsNumToString (2 : ℚ) ++ tdClose ++ rowWs ++ tdRightOpen ++ "$"
          ++ toFixed2 (10 : ℚ) ++ tdClose ++ rowWs)
        "\n    "
      apply str_ext
      simp [invoiceRow, str_data_append, rowEnd, List.append_assoc]
  · apply strInfix_congr _ (invTotalLabel ++ toFixed2 (20 : ℚ))
    · rw [htot]
      decide
    · apply strInfix_of_eq _
        (invoiceHead ⟨"Invoice #1", [⟨"A", 2, 10⟩], 20, none⟩ ++ "<tbody>"
          ++ invoiceTbody ⟨"Invoice #1", [⟨"A", 2, 10⟩], 20, none⟩ ++ "</tbody>"
          ++ invAfterTbody)
        invTail
      apply str_ext
      simp [generateInvoiceHTML, invoiceTail, str_data_append, List.append_assoc]

/-! ## Escaping lemmas -/

theorem escChar_no_lt_gt (c : Char) : ∀ x ∈ (escChar c).data, x ≠ '<' ∧ x ≠ '>' := by
  unfold escChar
  split_ifs with h1 h2
  · decide
  · decide
  · intro x hx
    have hxc : x = c := by simpa using hx
    exact hxc ▸ ⟨h1, h2⟩

theorem escapeLtGt_no_lt_gt (s : String) :
    ∀ x ∈ (escapeLtGt s).data, x ≠ '<' ∧ x ≠ '>' := by
  unfold escapeLtGt
  generalize s.data = l
  induction l with
  | nil =>
    intro x hx
    rw [show concatMap escChar ([] : List Char) = "" from rfl] at hx
    simp at hx
  | cons c t ih =>
    intro x hx
    rw [show concatMap escChar (c :: t) = escChar c ++ concatMap escChar t from rfl,
        str_data_append] at hx
    rcases List.mem_append.mp hx with h | h
    · exact escChar_no_lt_gt c x h
    · exact ih x h

theorem strInfix_empty (s : String) : strInfix "" s := ⟨[], s.data, by simp⟩

/-! ## Claim C4 -/

/-- C4: none of the three template builders escapes any caller-supplied string
field — titles, item names, report content, addresses and barcodes are
interpolated verbatim into the output — while `FileService.printTextFile` in
the filesystem-enabled variant interpolates the file content only after
replacing every `<` with `&lt;` and every `>` with `&gt;` (so the escaped
content contains no `<` or `>` character at all). -/
theorem claim4_raw_interpolation :
    (∀ d : InvoiceData, strInfix d.title (generateInvoiceHTML d)
        ∧ ∀ it ∈ d.items, strInfix it.name (generateInvoiceHTML d))
    ∧ (∀ d : ReportData, strInfix d.title (generateReportHTML d)
        ∧ strInfix d.content (generateReportHTML d))
    ∧ (∀ d : LabelData, strInfix d.title (generateLabelHTML d)
        ∧ (∀ a, d.address = some a → strInfix a (generateLabelHTML d))
        ∧ (∀ b, d.barcode = some b → strInfix b (generateLabelHTML d)))
    ∧ (∀ content : String,
        printTextFileHTML content = textFileHead ++ escapeLtGt content ++ textFileTail
        ∧ ∀ x ∈ (escapeLtGt content).data, x ≠ '<' ∧ x ≠ '>') := by
  refine ⟨fun d => ⟨?_, fun it hm => ?_⟩, fun d => ⟨?_, ?_⟩, fun d => ⟨?_, ?_, ?_⟩,
    fun content => ⟨rfl, escapeLtGt_no_lt_gt content⟩⟩
  · apply strInfix_of_eq _ docTitleOpen
      (invStyleHead ++ d.title ++ invAfterH1
        ++ jsCondStr d.date (fun v => "<p>Date: " ++ v ++ "</p>") ++ invTableHead
        ++ "<tbody>" ++ invoiceTbody d ++ "</tbody>" ++ invoiceTail d)
    apply str_ext
    simp [generateInvoiceHTML, invoiceHead, str_data_append, List.append_assoc]
  · apply strInfix_row_doc d it hm
    apply strInfix_of_eq _ rowOpen
      (tdClose ++ rowWs ++ tdCenterOpen ++ jsNumToString it.quantity
        ++ tdClose ++ rowWs ++ tdRightOpen ++ "$" ++ toFixed2 it.price
        ++ tdClose ++ rowWs ++ tdRightOpen ++ "$" ++ toFixed2 (it.quantity * it.price)
        ++ tdClose ++ rowEnd)
    apply str_ext
    simp [invoiceRow, str_data_append, List.append_assoc]
  · apply strInfix_of_eq _ docTitleOpen
      (repStyleHead ++ d.title ++ repMetaOpen
        ++ jsCondStr d.author (fun a => "<p>Author: " ++ a ++ "</p>") ++ repMetaSep
        ++ jsCondStr d.date (fun v => "<p>Date: " ++ v ++ "</p>") ++ repAfterMeta
        ++ repContentOpen ++ repContentWs ++ d.content ++ repContentClose ++ repTail)
    apply str_ext
    simp [generateReportHTML, str_data_append, List.append_assoc]
  · apply strInfix_of_eq _
      (docTitleOpen ++ d.title ++ repStyleHead ++ d.title ++ repMetaOpen
        ++ jsCondStr d.author (fun a => "<p>Author: " ++ a ++ "</p>") ++ repMetaSep
        ++ jsCondStr d.date (fun v => "<p>Date: " ++ v ++ "</p>") ++ repAfterMeta
        ++ repContentOpen ++ repContentWs)
      (repContentClose ++ repTail)
    apply str_ext
    simp [generateReportHTML, str_data_append, List.append_assoc]
  · apply strInfix_of_eq _ docTitleOpen
      (labStyle1 ++ labStyle2 ++ labStyle3 ++ labelTitleOpen ++ d.title
        ++ labAfterTitle
        ++ jsCondStr d.address (fun a => labelAddrOpen ++ a ++ "</div>")
        ++ labBetween
        ++ jsCondStr d.barcode (fun b => labelBarcodeOpen ++ b ++ "</div>")
        ++ labTail)
    apply str_ext
    simp [generateLabelHTML, str_data_append, List.append_assoc]
  · intro a haddr
    by_cases hae : a = ""
    · exact hae ▸ strInfix_empty _
    · have hblock : jsCondStr d.address (fun x => labelAddrOpen ++ x ++ "</div>")
          = labelAddrOpen ++ a ++ "</div>" := by
        rw [haddr]
        simp [jsCondStr, hae]
      apply strInfix_of_eq _
        (docTitleOpen ++ d.title ++ labStyle1 ++ labStyle2 ++ labStyle3
          ++ labelTitleOpen ++ d.title ++ labAfterTitle ++ labelAddrOpen)
        ("</div>" ++ labBetween
          ++ jsCondStr d.barcode (fun b => labelBarcodeOpen ++ b ++ "</div>")
          ++ labTail)
      apply str_ext
      simp [generateLabelHTML, hblock, str_data_append, List.append_assoc]
  · intro b hbar
    by_cases hbe : b = ""
    · exact hbe ▸ strInfix_empty _
    · have hblock : jsCondStr d.barcode (fun x => labelBarcodeOpen ++ x ++ "</div>")
          = labelBarcodeOpen ++ b ++ "</div>" := by
        rw [hbar]
        simp [jsCondStr, hbe]
      apply strInfix_of_eq _
        (docTitleOpen ++ d.title ++ labStyle1 ++ labStyle2 ++ labStyle3
          ++ labelTitleOpen ++ d.title ++ labAfterTitle
          ++ jsCondStr d.address (fun a => labelAddrOpen ++ a ++ "</div>")
          ++ labBetween ++ labelBarcodeOpen)
        ("</div>" ++ labTail)
      apply str_ext
      simp [generateLabelHTML, hblock, str_data_append, List.append_assoc]

/-- Witness for C4 at concrete records whose fields contain markup
characters. -/
theorem claim4_witness :
    strInfix "Bob & Sons <LLC>"
      (generateInvoiceHTML ⟨"Bob & Sons <LLC>", [], 0, none⟩)
    ∧ strInfix "12 Main <st>" (generateLabelHTML ⟨"L", some "12 Main <st>", none⟩) :=
  ⟨(claim4_raw_interpolation.1 ⟨"Bob & Sons <LLC>", [], 0, none⟩).1,
   (claim4_raw_interpolation.2.2.1 ⟨"L", some "12 Main <st>", none⟩).2.1
     "12 Main <st>" rfl⟩

/-! ## Claim C6 -/

/-- C6: for every Report data record, the output of `generateReportHTML`
contains, between the content div open tag and its closing tag, the record's
`content` field verbatim (unescaped and unmodified), as a contiguous
substring. -/
theorem claim6_report_content (d : ReportData) :
    strInfix (repContentOpen ++ repContentWs ++ d.content ++ repContentClose)
      (generateReportHTML d) := by
  apply strInfix_of_eq _
    (docTitleOpen ++ d.title ++ repStyleHead ++ d.title ++ repMetaOpen
      ++ jsCondStr d.author (fun a => "<p>Author: " ++ a ++ "</p>") ++ repMetaSep
      ++ jsCondStr d.date (fun v => "<p>Date: " ++ v ++ "</p>") ++ repAfterMeta)
    repTail
  apply str_ext
  simp [generateReportHTML, str_data_append, List.append_assoc]

/-! ## Counting label-address containers -/

/-- The label-address container marker of claim C7, as a character list. -/
def laMark : List Char := labelAddrOpen.data

theorem laMark_drop_head :
    ∀ j ∈ List.range laMark.length, 0 < j → (laMark.drop j).head? ≠ some '<' := by
  decide

/-- Splitting a `laMark` count at a boundary whose right side starts with
`<`. -/
theorem occ_la_step_field (f rest : List Char) (hhead : rest.head? = some '<') :
    occCount laMark (f ++ rest) = occCount laMark f + occCount laMark rest :=
  occCount_append_of_spanFreeR _ _ _ (spanFreeR_of_head _ _ '<' hhead laMark_drop_head)

theorem spanFreeL_nil (pat : List Char) : SpanFreeL pat [] := by
  intro j hj hj0 hsuf
  have h1 : pat.take j = [] := List.suffix_nil.mp hsuf
  have h2 := congrArg List.length h1
  rw [List.length_take] at h2
  have h3 := List.mem_range.mp hj
  simp only [List.length_nil] at h2
  omega

/-- The conditional blocks of the label template end in the concrete tail
`</div>`, which blocks any straddling occurrence of `laMark`. -/
theorem spanFreeL_la_condBlock (x : Option String) (openTag : String) :
    SpanFreeL laMark (jsCondStr x (fun a => openTag ++ a ++ "</div>")).data := by
  rcases x with _ | a
  · exact spanFreeL_nil _
  · by_cases hae : a = ""
    · simp only [jsCondStr, hae, if_pos rfl]
      exact spanFreeL_nil _
    · simp only [jsCondStr, if_neg hae]
      rw [show ((openTag ++ a ++ "</div>") : String).data
            = (openTag.data ++ a.data) ++ ("</div>" : String).data by
          simp [str_data_append, List.append_assoc]]
      exact spanFreeL_of_tailSafe _ _ _ (by decide)

/-- The marker count of an absent or empty conditional block is zero. -/
theorem occ_la_condBlock_trivial (x : Option String) (openTag : String)
    (hx : x = none ∨ x = some "") :
    occCount laMark (jsCondStr x (fun a => openTag ++ a ++ "</div>")).data = 0 := by
  rcases hx with h | h <;> subst h <;> rfl

/-- The marker count of a present, nonempty conditional block is that of its
open tag (the field itself being marker-free). -/
theorem occ_la_condBlock_present (a : String) (openTag : String)
    (hso : SpanFreeL laMark openTag.data) (hae : a ≠ "")
    (ha : occCount laMark a.data = 0) :
    occCount laMark (jsCondStr (some a) (fun x => openTag ++ x ++ "</div>")).data
      = occCount laMark openTag.data := by
  simp only [jsCondStr, if_neg hae]
  rw [show ((openTag ++ a ++ "</div>") : String).data
        = openTag.data ++ (a.data ++ ("</div>" : String).data) by
      simp [str_data_append, List.append_assoc]]
  rw [occ_step_lit laMark openTag.data _ hso]
  rw [occ_la_step_field a.data _
        (by decide : (("</div>" : String).data).head? = some '<')]
  rw [ha]
  have h0 : occCount laMark ("</div>" : String).data = 0 := by decide
  rw [h0]
  omega

/-- A barcode block never contributes a label-address marker, as long as the
barcode text itself is marker-free. -/
theorem occ_la_barBlock_zero (x : Option String)
    (hx : ∀ b, x = some b → occCount laMark b.data = 0) :
    occCount laMark (jsCondStr x (fun b => labelBarcodeOpen ++ b ++ "</div>")).data
      = 0 := by
  rcases x with _ | b
  · rfl
  · by_cases hbe : b = ""
    · subst hbe
      rfl
    · rw [occ_la_condBlock_present b labelBarcodeOpen (by decide) hbe (hx b rfl)]
      decide

set_option maxRecDepth 4000 in
/-- The `laMark` count of a full label document: twice the count in the title
(interpolated in `<title>` and in the label-title div) plus the count of the
address block, provided the barcode is marker-free. -/
theorem occ_labelHTML (d : LabelData)
    (hb : ∀ b, d.barcode = some b → occCount laMark b.data = 0) :
    occCount laMark (generateLabelHTML d).data
      = 2 * occCount laMark d.title.data
        + occCount laMark
            (jsCondStr d.address (fun a => labelAddrOpen ++ a ++ "</div>")).data := by
  simp only [generateLabelHTML, str_data_append, List.append_assoc]
  rw [occ_step_lit laMark docTitleOpen.data _ (by decide)]
  rw [occ_la_step_field d.title.data _
        (head?_append_of_head? labStyle1.data _ '<' rfl)]
  rw [occ_step_lit laMark labStyle1.data _ (by decide)]
  rw [occ_step_lit laMark labStyle2.data _ (by decide)]
  rw [occ_step_lit laMark labStyle3.data _ (by decide)]
  rw [occ_step_lit laMark labelTitleOpen.data _ (by decide)]
  rw [occ_la_step_field d.title.data _
        (head?_append_of_head? labAfterTitle.data _ '<' rfl)]
  rw [occ_step_lit laMark labAfterTitle.data _ (by decide)]
  rw [occ_step_lit laMark _ _ (spanFreeL_la_condBlock d.address labelAddrOpen)]
  rw [occ_step_lit laMark labBetween.data _ (by decide)]
  rw [occ_step_lit laMark _ _ (spanFreeL_la_condBlock d.barcode labelBarcodeOpen)]
  rw [occ_la_barBlock_zero d.barcode hb]
  have h1 : occCount laMark docTitleOpen.data = 0 := by decide
  have h2 : occCount laMark labStyle1.data = 0 := by decide
  have h3 : occCount laMark labStyle2.data = 0 := by decide
  have h4 : occCount laMark labStyle3.data = 0 := by decide
  have h5 : occCount laMark labelTitleOpen.data = 0 := by decide
  have h6 : occCount laMark labAfterTitle.data = 0 := by decide
  have h7 : occCount laMark labBetween.data = 0 := by decide
  have h8 : occCount laMark labTail.data = 0 := by decide
  rw [h1, h2, h3, h4, h5, h6, h7, h8]
  omega

/-! ## Claim C7 -/

/-- C7 as stated is false on the code, in both directions. With the address
absent but the (raw-interpolated) title equal to
`<div class="label-address">x</div>`, the marker appears twice in the output;
with the address present but equal to the empty string (which the template
conditional treats as falsy), no container is rendered at all. -/
theorem claim7_counterexample :
    (occCount laMark
        (generateLabelHTML ⟨"<div class=\"label-address\">x</div>", none, none⟩).data = 2
      ∧ (⟨"<div class=\"label-address\">x</div>", none, none⟩ : LabelData).address = none)
    ∧ (occCount laMark (generateLabelHTML ⟨"T", some "", none⟩).data = 0
      ∧ (⟨"T", some "", none⟩ : LabelData).address = some "") := by
  constructor
  · refine ⟨?_, rfl⟩
    rw [occ_labelHTML ⟨"<div class=\"label-address\">x</div>", none, none⟩
          (fun b h => by simp at h)]
    decide
  · refine ⟨?_, rfl⟩
    rw [occ_labelHTML ⟨"T", some "", none⟩ (fun b h => by simp at h)]
    decide

set_option maxRecDepth 4000 in
/-- C7 (amended): for every Label data record whose title, address and barcode
do not themselves contain the substring `<div class="label-address">`, the
output of `generateLabelHTML` contains no occurrence of that container marker
at all when the address is absent or empty (the conditional treats an empty
address as absent, so not even an empty container is rendered), and exactly
one occurrence — the container holding the address verbatim — when the
address is present and nonempty. -/
theorem claim7_amended (d : LabelData)
    (ht : ¬ strInfix labelAddrOpen d.title)
    (ha : ∀ a, d.address = some a → ¬ strInfix labelAddrOpen a)
    (hb : ∀ b, d.barcode = some b → ¬ strInfix labelAddrOpen b) :
    ((d.address = none ∨ d.address = some "") →
        occCount laMark (generateLabelHTML d).data = 0)
    ∧ (∀ a, d.address = some a → a ≠ "" →
        occCount laMark (generateLabelHTML d).data = 1
        ∧ strInfix (labelAddrOpen ++ a ++ "</div>") (generateLabelHTML d)) := by
  have hmne : laMark ≠ [] := by decide
  have ht0 : occCount laMark d.title.data = 0 :=
    (occCount_eq_zero_iff laMark d.title.data hmne).mpr ht
  have hb0 : ∀ b, d.barcode = some b → occCount laMark b.data = 0 :=
    fun b hbb => (occCount_eq_zero_iff laMark b.data hmne).mpr (hb b hbb)
  constructor
  · intro hcase
    rw [occ_labelHTML d hb0, ht0, occ_la_condBlock_trivial d.address labelAddrOpen hcase]
  · intro a haddr hane
    constructor
    · rw [occ_labelHTML d hb0, ht0, haddr,
          occ_la_condBlock_present a labelAddrOpen (by decide) hane
            ((occCount_eq_zero_iff laMark a.data hmne).mpr (ha a haddr))]
      decide
    · have hblock : jsCondStr d.address (fun x => labelAddrOpen ++ x ++ "</div>")
          = labelAddrOpen ++ a ++ "</div>" := by
        rw [haddr]
        simp [jsCondStr, hane]
      apply strInfix_of_eq _
        (docTitleOpen ++ d.title ++ labStyle1 ++ labStyle2 ++ labStyle3
          ++ labelTitleOpen ++ d.title ++ labAfterTitle)
        (labBetween
          ++ jsCondStr d.barcode (fun b => labelBarcodeOpen ++ b ++ "</div>")
          ++ labTail)
      apply str_ext
      simp [generateLabelHTML, hblock, str_data_append, List.append_assoc]

set_option maxRecDepth 4000 in
/-- Witness for C7 (amended) at two concrete labels, one without and one with
an address. -/
theorem claim7_witness :
    occCount laMark (generateLabelHTML ⟨"Box 7", none, some "XY-99"⟩).data = 0
    ∧ occCount laMark (generateLabelHTML ⟨"Box 7", some "1 Main St", none⟩).data = 1
    ∧ strInfix (labelAddrOpen ++ "1 Main St" ++ "</div>")
        (generateLabelHTML ⟨"Box 7", some "1 Main St", none⟩) := by
  have h1 := claim7_amended ⟨"Box 7", none, some "XY-99"⟩ (by decide)
    (fun a h => by simp at h) (fun b h => by rw [show b = "XY-99" by simpa using h.symm]; decide)
  have h2 := claim7_amended ⟨"Box 7", some "1 Main St", none⟩ (by decide)
    (fun a h => by rw [show a = "1 Main St" by simpa using h.symm]; decide)
    (fun b h => by simp at h)
  exact ⟨h1.1 (Or.inl rfl), (h2.2 "1 Main St" rfl (by decide)).1,
    (h2.2 "1 Main St" rfl (by decide)).2⟩

/-! ## Claim C3 -/

/-- C3 as stated is false on the code: `ImageService.pickImageFromGallery`
has no try/catch (ImageService.ts lines 57-71). When the permission is
granted and `launchImageLibraryAsync` fails, the error is rethrown to the
caller unchanged, but nothing is logged to the console. -/
theorem claim3_counterexample :
    (ImageService.pickImageFromGallery .ios .granted (.error ⟨"boom"⟩)
        ⟨[], [], [], []⟩).1 = .error ⟨"boom"⟩
    ∧ (ImageService.pickImageFromGallery .ios .granted (.error ⟨"boom"⟩)
        ⟨[], [], [], []⟩).2.consoleLog = [] :=
  ⟨rfl, rfl⟩

/-- C3 (amended): every public method of `PrintService` and of `FileService`
that delegates to a fallible platform call catches a platform failure, logs
it to the console (`FileService`'s print methods log twice: once inside the
`PrintService`/`readFileAsString` delegate and once in their own catch) and
rethrows the original error value unchanged — for `generateAndSharePDF` this
covers all three of its platform calls: the render, the sharing-availability
query, and the share itself; `ImageService.pickImageFromGallery`
and `ImageService.takePhoto` rethrow the platform error unchanged but do not
catch or log it, and `ImageService.printImage`/`generateImagePDF` log only via
the `PrintService` delegate they are equal to. No method returns a substitute
value or a transformed error on failure. -/
theorem claim3_amended :
    (∀ (e : JSError) (w : World) (html : String),
      PrintService.printHTML html (.error e) w
          = (.error e, pushLog (pushCall w "printAsync") "Print error:" e)
      ∧ PrintService.printToFile html (.error e) w
          = (.error e, pushLog (pushCall w "printToFileAsync") "Print to file error:" e)
      ∧ PrintService.printToFileBase64 html (.error e) w
          = (.error e, pushLog (pushCall w "printToFileAsync") "Print to base64 error:" e)
      ∧ PrintService.printWithOrientation html (.error e) w
          = (.error e, pushLog (pushCall w "printAsync") "Print with orientation error:" e)
      ∧ PrintService.printWithMargins html (.error e) w
          = (.error e, pushLog (pushCall w "printAsync") "Print with margins error:" e)
      ∧ (∀ (avail : Except JSError Bool) (share : Except JSError Unit),
          PrintService.generateAndSharePDF html (.error e) avail share w
            = (.error e,
               pushLog (pushCall w "printToFileAsync") "Generate and share PDF error:" e))
      ∧ (∀ (r : PrintResult) (share : Except JSError Unit),
          PrintService.generateAndSharePDF html (.ok r) (.error e) share w
            = (.error e,
               pushLog
                 (pushCall (pushJob (pushCall w "printToFileAsync") html)
                   "isAvailableAsync")
                 "Generate and share PDF error:" e))
      ∧ (∀ (r : PrintResult),
          PrintService.generateAndSharePDF html (.ok r) (.ok true) (.error e) w
            = (.error e,
               pushLog
                 (pushCall
                   (pushCall (pushJob (pushCall w "printToFileAsync") html)
                     "isAvailableAsync")
                   "shareAsync")
                 "Generate and share PDF error:" e)))
    ∧ (∀ (e : JSError) (w : World) (uri content : String),
      FileService.pickDocument (.error e) w
          = (.error e, pushLog (pushCall w "getDocumentAsync") "Document picker error:" e)
      ∧ FileService.pickPDF (.error e) w
          = (.error e, pushLog (pushCall w "getDocumentAsync") "PDF picker error:" e)
      ∧ FileService.readFileAsBase64 (.error e) w
          = (.error e, pushLog (pushCall w "readAsStringAsync") "Read file error:" e)
      ∧ FileService.readFileAsString (.error e) w
          = (.error e, pushLog (pushCall w "readAsStringAsync") "Read file error:" e)
      ∧ FileService.printPDF uri (.error e) w
          = (.error e,
             pushLog (pushLog (pushCall w "printAsync") "Print error:" e)
               "Print PDF error:" e)
      ∧ FileService.printTextFile (.error e) (.ok ()) w
          = (.error e,
             pushLog (pushLog (pushCall w "readAsStringAsync") "Read file error:" e)
               "Print text file error:" e)
      ∧ FileService.printTextFile (.ok content) (.error e) w
          = (.error e,
             pushLog
               (pushLog (pushCall (pushCall w "readAsStringAsync") "printAsync")
                 "Print error:" e)
               "Print text file error:" e)
      ∧ FileService.printImageFile uri (.error e) w
          = (.error e,
             pushLog (pushLog (pushCall w "printAsync") "Print error:" e)
               "Print image file error:" e))
    ∧ (∀ (e : JSError) (w : World) (os : OSKind) (uri : String)
        (pr : Except JSError PrintResult),
      (ImageService.pickImageFromGallery os .granted (.error e) w).1 = .error e
      ∧ (ImageService.pickImageFromGallery os .granted (.error e) w).2.consoleLog
          = w.consoleLog
      ∧ (ImageService.takePhoto os .granted (.error e) w).1 = .error e
      ∧ (ImageService.takePhoto os .granted (.error e) w).2.consoleLog = w.consoleLog
      ∧ ImageService.printImage uri (.error e) w
          = PrintService.printHTML (imageHTML uri) (.error e) w
      ∧ ImageService.generateImagePDF uri pr w
          = PrintService.printToFile (imageHTML uri) pr w) := by
  refine ⟨fun e w html => ⟨rfl, rfl, rfl, rfl, rfl, fun avail share => rfl,
      fun r share => rfl, fun r => rfl⟩,
    fun e w uri content => ⟨rfl, rfl, rfl, rfl, rfl, rfl, rfl, rfl⟩,
    fun e w os uri pr => ?_⟩
  cases os <;> exact ⟨rfl, rfl, rfl, rfl, rfl, rfl⟩

/-! ## Claim C8 -/

/-- C8: the three template builders are pure and deterministic. Run in the
state-passing embedding they return the builder's string unchanged for any
starting `World`, leave the `World` exactly as it was (no console, alert,
platform-call or print-job effect), and the returned string does not depend
on the `World` they are started in. -/
theorem claim8_builders_pure :
    ∀ (di : InvoiceData) (dr : ReportData) (dl : LabelData) (w w' : World),
      generateInvoiceHTMLRun di w = (generateInvoiceHTML di, w)
      ∧ (generateInvoiceHTMLRun di w).1 = (generateInvoiceHTMLRun di w').1
      ∧ generateReportHTMLRun dr w = (generateReportHTML dr, w)
      ∧ (generateReportHTMLRun dr w).1 = (generateReportHTMLRun dr w').1
      ∧ generateLabelHTMLRun dl w = (generateLabelHTML dl, w)
      ∧ (generateLabelHTMLRun dl w).1 = (generateLabelHTMLRun dl w').1 :=
  fun _ _ _ _ _ => ⟨rfl, rfl, rfl, rfl, rfl, rfl⟩

/-! ## Claim C9 -/

/-- C9: when the underlying render call succeeds,
`PrintService.printToFileBase64` returns the base64 payload of the platform
result when one is present, and the empty string when the result carries no
base64 payload. -/
theorem claim9_base64 (html : String) (r : PrintResult) (w : World) :
    (∀ b, r.base64 = some b →
        (PrintService.printToFileBase64 html (.ok r) w).1 = .ok b)
    ∧ (r.base64 = none →
        (PrintService.printToFileBase64 html (.ok r) w).1 = .ok "") := by
  constructor
  · intro b hb
    by_cases hbe : b = ""
    · subst hbe
      simp [PrintService.printToFileBase64, jsStringOrEmpty, hb]
    · simp [PrintService.printToFileBase64, jsStringOrEmpty, hb, hbe]
  · intro hb
    simp [PrintService.printToFileBase64, jsStringOrEmpty, hb]

/-- Witness for C9 at a concrete platform result with and without a base64
payload. -/
theorem claim9_witness :
    (PrintService.printToFileBase64 "<p>x</p>"
        (.ok ⟨some "file:///doc.pdf", some "QUJD", some 1⟩) ⟨[], [], [], []⟩).1
      = .ok "QUJD"
    ∧ (PrintService.printToFileBase64 "<p>x</p>"
        (.ok ⟨some "file:///doc.pdf", none, some 1⟩) ⟨[], [], [], []⟩).1
      = .ok "" :=
  ⟨(claim9_base64 "<p>x</p>" ⟨some "file:///doc.pdf", some "QUJD", some 1⟩
      ⟨[], [], [], []⟩).1 "QUJD" rfl,
   (claim9_base64 "<p>x</p>" ⟨some "file:///doc.pdf", none, some 1⟩
      ⟨[], [], [], []⟩).2 rfl⟩

/-! ## Claim C10 -/

/-- C10: when the permission response is not `granted` (off web),
`pickImageFromGallery` throws `Error('Media library permission denied')` and
`takePhoto` throws `Error('Camera permission denied')`, and in both cases the
resulting `World` records only the permission request and the alert — the
picker/camera launcher is never invoked. On web the permission helpers return
`true` without consulting the platform permission API, so both methods go
straight to the launcher and the permission-denied error path is unreachable
there. -/
theorem claim10_permissions :
    (∀ (os : OSKind) (p : PermStatus) (launch : Except JSError ImagePickResult)
        (w : World), os ≠ .web → p ≠ .granted →
      ImageService.pickImageFromGallery os p launch w
          = (.error ⟨"Media library permission denied"⟩,
             pushAlert (pushCall w "requestMediaLibraryPermissionsAsync")
               "Media library permission is required to select images.")
      ∧ ImageService.takePhoto os p launch w
          = (.error ⟨"Camera permission denied"⟩,
             pushAlert (pushCall w "requestCameraPermissionsAsync")
               "Camera permission is required to take photos."))
    ∧ (∀ (p : PermStatus) (w : World),
      ImageService.requestMediaLibraryPermissions .web p w = (true, w)
      ∧ ImageService.requestCameraPermissions .web p w = (true, w))
    ∧ (∀ (p : PermStatus) (launch : Except JSError ImagePickResult) (w : World),
      ImageService.pickImageFromGallery .web p launch w
          = (launch, pushCall w "launchImageLibraryAsync")
      ∧ ImageService.takePhoto .web p launch w
          = (launch, pushCall w "launchCameraAsync")) := by
  refine ⟨fun os p launch w hos hp => ?_, fun p w => ⟨rfl, rfl⟩,
    fun p launch w => ⟨rfl, rfl⟩⟩
  cases os with
  | web => exact absurd rfl hos
  | ios =>
    cases p with
    | granted => exact absurd rfl hp
    | denied => exact ⟨rfl, rfl⟩
    | undetermined => exact ⟨rfl, rfl⟩
  | android =>
    cases p with
    | granted => exact absurd rfl hp
    | denied => exact ⟨rfl, rfl⟩
    | undetermined => exact ⟨rfl, rfl⟩

/-- Witness for C10: a denied camera permission on iOS. -/
theorem claim10_witness :
    ImageService.takePhoto .ios .denied (.ok ⟨false, ["file:///p.jpg"]⟩)
        ⟨[], [], [], []⟩
      = (.error ⟨"Camera permission denied"⟩,
         pushAlert (pushCall ⟨[], [], [], []⟩ "requestCameraPermissionsAsync")
           "Camera permission is required to take photos.") :=
  (claim10_permissions.1 .ios .denied (.ok ⟨false, ["file:///p.jpg"]⟩)
    ⟨[], [], [], []⟩ (by decide) (by decide)).2

end ExpoPrint
